import Mathlib

/-!
Verification development for the GISIB/BGT reconciliation pipeline.

The pipeline matches an asset-management inventory ("gisib", the source) against
the authoritative topographic registry ("bgt", the target).  Geometry-valued
columns are abstracted to their areas (as rationals): the overlay step of
`MatcherBase.calculate_overlap_df` produces one record per intersecting
(gisib row, bgt row) pair carrying the intersection area and both input areas,
from which the overlap ratios are derived exactly as in the source
(`overlap_bgt = area(intersection) / area(geometry_bgt)`, and symmetrically).
All list-processing steps (filters, groupbys, duplicate marking, sorts) are
translated from `src/matchers/matcher_base.py`, `src/matchers/filter_matches.py`,
`src/matchers/matcher_groenobjecten.py`, `src/matchers/matcher_verhardingsobjecten.py`,
`src/bucket_processor.py` and `src/buckets.py`.
-/

set_option maxRecDepth 100000

namespace GisibBgt

/-- One row of the overlay `gisib.overlay(bgt, how="intersection")`:
the intersection of one gisib feature and one bgt feature.
Geometry columns are abstracted to their areas. -/
structure ORecord where
  /-- gisib id column value (`GUID`). -/
  guid : Nat
  /-- bgt id column value (`LOKAALID` / `identificatie_lokaalid`). -/
  lokaalid : Nat
  /-- area of the intersection geometry (the active `geometry` column). -/
  area : Rat
  /-- area of the `geometry_gisib` column. -/
  area_gisib : Rat
  /-- area of the `geometry_bgt` column. -/
  area_bgt : Rat
  /-- gisib `hoogteligging` column, nullable. -/
  hoogte_gisib : Option Int
  /-- bgt `hoogteligging` column, nullable. -/
  hoogte_bgt : Option Int
  /-- `ONDERHOUDSPLICHTIGE` column, nullable categorical (encoded). -/
  onderhoudsplichtige : Option Nat
  /-- gisib `TYPE` column (e.g. "Haag"). -/
  typeGisib : String
  /-- `TYPE_GEDETAILLEERD` column, nullable categorical (encoded). -/
  type_gedetailleerd : Option Nat
  /-- `BEHEERDER_GEDETAILLEERD` column, nullable categorical (encoded). -/
  beheerder_gedetailleerd : Option Nat
  /-- bgt `ObjectType` column (e.g. "Vegetatieobject"). -/
  objectTypeBgt : String
  deriving DecidableEq

/-- `overlap_bgt = df.geometry.area / df.geometry_bgt.area` (calculate_overlap_df). -/
def ORecord.overlap_bgt (r : ORecord) : Rat := r.area / r.area_bgt

/-- `overlap_gisib = df.geometry.area / df.geometry_gisib.area` (calculate_overlap_df). -/
def ORecord.overlap_gisib (r : ORecord) : Rat := r.area / r.area_gisib

/-- An overlap record after `add_intersection_counts`: the two cardinality
columns merged in by the left-joins. -/
structure CRecord extends ORecord where
  /-- `guids_per_lokaalid`: distinct gisib ids sharing this record's bgt id. -/
  guids_per_lokaalid : Nat
  /-- `lokaalids_per_guid`: distinct bgt ids sharing this record's gisib id. -/
  lokaalids_per_guid : Nat
  deriving DecidableEq

def CRecord.overlap_bgt (r : CRecord) : Rat := r.toORecord.overlap_bgt

def CRecord.overlap_gisib (r : CRecord) : Rat := r.toORecord.overlap_gisib

/-- One row of the gisib input table (`gisib_gdf`); non-geometric attributes other
than the id and the skip-type column are abstracted into `attrs`. -/
structure GFeature where
  guid : Nat
  /-- the `global_vars.TYPE_COL_GISIB` column consulted by the skip filter. -/
  typeGisib : String
  /-- the remaining non-geometric attribute payload, abstracted. -/
  attrs : Nat
  deriving DecidableEq

/-- `MatcherBase.__init__` line 33: drop the rows whose type is in
`global_vars.SKIP_TYPES` (module not present under src/; modelled from the spec:
"a skip types set ... used to exclude certain categories from the classifier's
working set before overlap computation"). -/
def gisibWorking (skipTypes : List String) (gisib : List GFeature) : List GFeature :=
  gisib.filter (fun f => !decide (f.typeGisib ∈ skipTypes))

/-- `MatcherBase.filter_overlap_min_ratio`: keep a record iff at least one ratio
is `>= min_ratio` and the two ratios sum to `> 0.6`. -/
def gateMin (mr : Rat) (r : ORecord) : Bool :=
  (decide (mr ≤ r.overlap_bgt) || decide (mr ≤ r.overlap_gisib)) &&
    decide ((0.6 : Rat) < r.overlap_bgt + r.overlap_gisib)

/-- The filter itself (source name `filter_overlap_min_ratio`). -/
def filter_overlap_min (mr : Rat) (l : List ORecord) : List ORecord :=
  l.filter (gateMin mr)

/-- Distinct bgt ids among the records of gisib id `g` (the groupby/nunique
feeding `lokaalids_per_guid`). -/
def lokaalidsOf (l : List ORecord) (g : Nat) : List Nat :=
  ((l.filter (fun r => decide (r.guid = g))).map (fun r => r.lokaalid)).dedup

/-- Distinct gisib ids among the records of bgt id `t` (the groupby/nunique
feeding `guids_per_lokaalid`). -/
def guidsOfLok (l : List ORecord) (t : Nat) : List Nat :=
  ((l.filter (fun r => decide (r.lokaalid = t))).map (fun r => r.guid)).dedup

/-- `MatcherBase.add_intersection_counts`: annotate every record with the two
left-joined nunique counts. -/
def add_intersection_counts (l : List ORecord) : List CRecord :=
  l.map (fun o =>
    { toORecord := o
      guids_per_lokaalid := (guidsOfLok l o.lokaalid).length
      lokaalids_per_guid := (lokaalidsOf l o.guid).length })

/-- `perfect_match` flag of `_add_match_flags`: both ratios `> 0.90`. -/
def perfect_match (r : CRecord) : Bool :=
  decide ((0.9 : Rat) < r.overlap_bgt) && decide ((0.9 : Rat) < r.overlap_gisib)

/-- `rel_match` flag of `_add_match_flags`: the two elevation columns agree
after `fillna(0).astype(int)`. -/
def rel_match (r : CRecord) : Bool :=
  decide (r.hoogte_gisib.getD 0 = r.hoogte_bgt.getD 0)

/-- The `perfect_rel_mask` of `get_perfect_rel_matches`. -/
def perfectRel (r : CRecord) : Bool := perfect_match r && rel_match r

/-- `guids_with_perfect_rel`. -/
def guidsPerfectRel (df : List CRecord) : List Nat :=
  (df.filter perfectRel).map (fun r => r.guid)

/-- `subset1`: the perfect+rel rows of ids that have one. -/
def gprmSubset1 (df : List CRecord) : List CRecord :=
  df.filter (fun r => perfectRel r && decide (r.guid ∈ guidsPerfectRel df))

/-- `subset2`: all rows of ids without any perfect+rel row. -/
def gprmSubset2 (df : List CRecord) : List CRecord :=
  df.filter (fun r => !decide (r.guid ∈ guidsPerfectRel df))

/-- `merged_df`. -/
def gprmMerged (df : List CRecord) : List CRecord := gprmSubset1 df ++ gprmSubset2 df

/-- `guids_multi_rel`: the id's `rel_match` column takes both values
(`nunique == 2`). -/
def hasBothRel (df : List CRecord) (g : Nat) : Bool :=
  ((gprmMerged df).any (fun r => decide (r.guid = g) && rel_match r)) &&
    ((gprmMerged df).any (fun r => decide (r.guid = g) && !rel_match r))

/-- `subset3`: the perfect rows of the two-valued-rel ids. -/
def gprmSubset3 (df : List CRecord) : List CRecord :=
  (gprmMerged df).filter (fun r => hasBothRel df r.guid && perfect_match r)

/-- `rest`: rows whose id has no row in `subset3`. -/
def gprmRest (df : List CRecord) : List CRecord :=
  (gprmMerged df).filter
    (fun r => !decide (r.guid ∈ (gprmSubset3 df).map (fun q => q.guid)))

/-- `MatcherBase.get_perfect_rel_matches`, translated concat-of-filters for
concat-of-filters. -/
def get_perfect_rel_matches (df : List CRecord) : List CRecord :=
  gprmSubset3 df ++ gprmRest df

/-- `MatcherBase.preprocess`: overlay (our record list input), min-ratio filter,
cardinality counts, perfect/rel resolution. -/
def preprocess (mr : Rat) (records : List ORecord) : List CRecord :=
  get_perfect_rel_matches (add_intersection_counts (filter_overlap_min mr records))

/-- `filter_hagen` of src/matchers/filter_matches.py: select the hedge rows
(`TYPE == "Haag"`, `overlap_gisib > 0.9`, `ObjectType == "Vegetatieobject"`),
drop every row whose gisib id has such a hedge row, then re-append the hedge
rows. -/
def hagenQual (r : ORecord) : Bool :=
  decide (r.typeGisib = "Haag") && decide ((0.9 : Rat) < r.overlap_gisib) &&
    decide (r.objectTypeBgt = "Vegetatieobject")

def filter_hagen (l : List ORecord) : List ORecord :=
  let hagen := l.filter hagenQual
  let hagenGuids := hagen.map (fun r => r.guid)
  (l.filter (fun r => !decide (r.guid ∈ hagenGuids))) ++ hagen

/-- `GroenobjectenMatcher.preprocess`: as the base preprocess but with
`filter_hagen` applied between the min-ratio filter and the cardinality
annotation. -/
def preprocessGroen (mr : Rat) (records : List ORecord) : List CRecord :=
  get_perfect_rel_matches (add_intersection_counts (filter_hagen (filter_overlap_min mr records)))

/-- `MatcherBase.no_matches`: gisib rows (of the skip-filtered working set)
whose id appears in no surviving intersection record. -/
def no_matches (gisibW : List GFeature) (idf : List CRecord) : List GFeature :=
  gisibW.filter (fun f => !(idf.any (fun r => decide (r.guid = f.guid))))

/-- The row predicate of `select_1_to_1_geometric_matches`. -/
def is1to1Geom (r : CRecord) : Bool :=
  decide (r.guids_per_lokaalid = 1) && decide (r.lokaalids_per_guid = 1) &&
    decide ((0.75 : Rat) < r.overlap_bgt) && decide ((0.75 : Rat) < r.overlap_gisib)

/-- `MatcherBase.select_1_to_1_geometric_matches`. -/
def select_1_to_1_geometric_matches (idf : List CRecord) : List CRecord × List CRecord :=
  (idf.filter is1to1Geom, idf.filter (fun r => !is1to1Geom r))

/-- gisib elevation with `fillna(0).astype(int)`. -/
def hgZ (r : CRecord) : Int := r.hoogte_gisib.getD 0

/-- bgt elevation with `fillna(0).astype(int)`. -/
def hbZ (r : CRecord) : Int := r.hoogte_bgt.getD 0

/-- One row of the `build_bgt_gisib_grouped` aggregation (grouped by
(bgt id, filled gisib elevation)); only the aggregates the masks read are kept,
`nunique(dropna=False)` becomes `dedup.length` over the option-valued column. -/
structure BgtGisibGroup where
  lokaalid : Nat
  hoogte : Int
  /-- summed `overlap_bgt` of the group. -/
  overlap_bgt : Rat
  /-- mean `overlap_gisib` of the group. -/
  overlap_gisib : Rat
  guid_list : List Nat
  guid_count : Nat
  n_onderhoudsplichtige : Nat
  n_type : Nat
  n_type_gedetailleerd : Nat
  n_beheerder_gedetailleerd : Nat
  deriving DecidableEq

/-- `MatcherBase.build_bgt_gisib_grouped`. -/
def build_bgt_gisib_grouped (idf : List CRecord) : List BgtGisibGroup :=
  ((idf.map (fun r => (r.lokaalid, hgZ r))).dedup).map (fun k =>
    let rows := idf.filter (fun r => decide (r.lokaalid = k.1) && decide (hgZ r = k.2))
    { lokaalid := k.1
      hoogte := k.2
      overlap_bgt := (rows.map (fun r => r.overlap_bgt)).sum
      overlap_gisib := (rows.map (fun r => r.overlap_gisib)).sum / (rows.length : Rat)
      guid_list := rows.map (fun r => r.guid)
      guid_count := (rows.map (fun r => r.guid)).length
      n_onderhoudsplichtige := (rows.map (fun r => r.onderhoudsplichtige)).dedup.length
      n_type := (rows.map (fun r => r.typeGisib)).dedup.length
      n_type_gedetailleerd := (rows.map (fun r => r.type_gedetailleerd)).dedup.length
      n_beheerder_gedetailleerd := (rows.map (fun r => r.beheerder_gedetailleerd)).dedup.length })

/-- The `(0.90, 1.1)` band of the `overlap_bgt10` / `overlap_gisib10` flags. -/
def inBand (x : Rat) : Bool := decide ((0.9 : Rat) < x) && decide (x < (1.1 : Rat))

/-- `_select_1_bgt_to_n_gisib_overlap5_split`: exploded guid lists of the
qualifying groups. -/
def splitGuidsRaw (groups : List BgtGisibGroup) : List Nat :=
  (groups.filter (fun gp =>
    decide (1 < gp.guid_count) && inBand gp.overlap_bgt && inBand gp.overlap_gisib)).flatMap
    (fun gp => gp.guid_list)

/-- `_select_1_bgt_to_n_gisib_overlap5_merge`: as the split set plus the
attribute conditions. -/
def mergeGuids (groups : List BgtGisibGroup) : List Nat :=
  (groups.filter (fun gp =>
    decide (1 < gp.guid_count) && inBand gp.overlap_bgt && inBand gp.overlap_gisib &&
      decide (gp.n_onderhoudsplichtige = 1) && decide (gp.n_type_gedetailleerd = 1) &&
      decide (gp.n_beheerder_gedetailleerd < 2))).flatMap (fun gp => gp.guid_list)

/-- `MatcherBase.select_1_bgt_to_n_gisib_overlap5_matches`:
(bucket_merge, bucket_split, remaining). -/
def select_1_bgt_to_n_gisib_overlap5_matches (idf : List CRecord) :
    List CRecord × List CRecord × List CRecord :=
  let groups := build_bgt_gisib_grouped idf
  let gM := mergeGuids groups
  let gS := (splitGuidsRaw groups).filter (fun g => !decide (g ∈ gM))
  (idf.filter (fun r => decide (r.guid ∈ gM)),
   idf.filter (fun r => decide (r.guid ∈ gS)),
   idf.filter (fun r => !(decide (r.guid ∈ gM) || decide (r.guid ∈ gS))))

/-- One row of the `build_gisib_bgt_grouped` aggregation (grouped by
(gisib id, filled bgt elevation)). -/
structure GisibBgtGroup where
  guid : Nat
  hoogte : Int
  /-- summed `overlap_gisib` of the group. -/
  overlap_gisib : Rat
  /-- mean `overlap_bgt` of the group. -/
  overlap_bgt : Rat
  lokaalid_list : List Nat
  lokaalid_count : Nat
  deriving DecidableEq

/-- `MatcherBase.build_gisib_bgt_grouped`. -/
def build_gisib_bgt_grouped (idf : List CRecord) : List GisibBgtGroup :=
  ((idf.map (fun r => (r.guid, hbZ r))).dedup).map (fun k =>
    let rows := idf.filter (fun r => decide (r.guid = k.1) && decide (hbZ r = k.2))
    { guid := k.1
      hoogte := k.2
      overlap_gisib := (rows.map (fun r => r.overlap_gisib)).sum
      overlap_bgt := (rows.map (fun r => r.overlap_bgt)).sum / (rows.length : Rat)
      lokaalid_list := rows.map (fun r => r.lokaalid)
      lokaalid_count := (rows.map (fun r => r.lokaalid)).length })

/-- `MatcherBase.select_1_gisib_to_n_bgt_overlap5_matches`. -/
def select_1_gisib_to_n_bgt_overlap5_matches (idf : List CRecord) :
    List CRecord × List CRecord :=
  let groups := build_gisib_bgt_grouped idf
  let gS := (groups.filter (fun gp =>
    inBand gp.overlap_bgt && inBand gp.overlap_gisib && decide (1 < gp.lokaalid_count))).map
      (fun gp => gp.guid)
  (idf.filter (fun r => decide (r.guid ∈ gS)),
   idf.filter (fun r => !decide (r.guid ∈ gS)))

/-- The `geom_match` row predicate: both ratios `> 0.75`. -/
def geom75 (r : CRecord) : Bool :=
  decide ((0.75 : Rat) < r.overlap_bgt) && decide ((0.75 : Rat) < r.overlap_gisib)

/-- `MatcherBase.geom_match`.  The source asserts that every gisib id occurs at
most once among the qualifying rows (`value_counts().max() == 1`); the
AssertionError is modelled as `none`. -/
def geom_match (idf : List CRecord) : Option (List CRecord × List CRecord) :=
  let m := idf.filter geom75
  if m.any (fun r => 1 < (m.filter (fun q => decide (q.guid = r.guid))).length) then none
  else
    some (m, idf.filter (fun r => !(m.any (fun q => decide (q.guid = r.guid)))))

/-- The `clip_match` row predicate: `overlap_bgt < 0.50` and `overlap_gisib > 0.85`. -/
def clipPred (r : CRecord) : Bool :=
  decide (r.overlap_bgt < (0.5 : Rat)) && decide ((0.85 : Rat) < r.overlap_gisib)

/-- The `hoogte_equal` helper column of `clip_match` (the source fills only the
gisib column; the bgt column is assumed non-null there). -/
def hoogte_equal (r : CRecord) : Bool := decide (hbZ r = hgZ r)

/-- `drop_duplicates(gisib_id_col, keep="first")`: keep the first row per gisib id. -/
def dedupByGuid : List Nat → List CRecord → List CRecord
  | _, [] => []
  | seen, r :: rs =>
    if r.guid ∈ seen then dedupByGuid seen rs else r :: dedupByGuid (r.guid :: seen) rs

/-- `MatcherBase.clip_match`.  Sorting a boolean column descending stably is
the partition `true`-rows ++ `false`-rows. -/
def clip_match (idf : List CRecord) : List CRecord × List CRecord :=
  let f := idf.filter clipPred
  let sorted := f.filter hoogte_equal ++ f.filter (fun r => !hoogte_equal r)
  let ded := dedupByGuid [] sorted
  (ded, idf.filter (fun r => !(ded.any (fun q => decide (q.guid = r.guid)))))

/-- Stable insertion (ascending) used to model `sort_values(ascending=True)`. -/
def insertAscBy {α : Type} (f : α → Rat) (a : α) : List α → List α
  | [] => [a]
  | b :: bs => if f a < f b then a :: b :: bs else b :: insertAscBy f a bs

/-- Stable ascending sort by a rational key. -/
def sortAscBy {α : Type} (f : α → Rat) (l : List α) : List α :=
  l.foldl (fun acc a => insertAscBy f a acc) []

/-- Stable insertion (descending). -/
def insertDescBy {α : Type} (f : α → Rat) (a : α) : List α → List α
  | [] => [a]
  | b :: bs => if f b < f a then a :: b :: bs else b :: insertDescBy f a bs

/-- Stable descending sort by a rational key, modelling
`sort_values(ascending=False)`. -/
def sortDescBy {α : Type} (f : α → Rat) (l : List α) : List α :=
  l.foldl (fun acc a => insertDescBy f a acc) []

/-- The `total_sum` column of `VerhardingenMatcher.additional_matches_based_on_overlap`. -/
def totalSum (r : CRecord) : Rat := r.overlap_gisib + r.overlap_bgt

/-- `VerhardingenMatcher.additional_matches_based_on_overlap`: rows whose summed
ratios exceed 1.5 (sorted ascending by that sum); the remaining rows are those
whose gisib id is not among the bucket's. -/
def additional_matches_based_on_overlap (idf : List CRecord) : List CRecord × List CRecord :=
  let bucket := (sortAscBy totalSum idf).filter (fun r => decide ((1.5 : Rat) < totalSum r))
  (bucket, idf.filter (fun r => !(bucket.any (fun q => decide (q.guid = r.guid)))))

/-- Bucket name strings of `buckets.py` (`BASE_BUCKETS`). -/
def bucketName0 : String := "no_matches"

def bucketName1 : String := "geom_1_to_1"

def bucketName2 : String := "bgt_split"

def bucketName3 : String := "gisib_merge"

def bucketName4 : String := "gisib_split"

def bucketName5 : String := "geom_75_match"

def bucketName6 : String := "clip_match"

def bucketNameRem : String := "remaining"

/-- `VRH_BUCKETS` renames position 6 and appends a 7th bucket. -/
def bucketNameVrh6 : String := "geom_overlap_150_match"

def bucketNameVrh7 : String := "clip_match"

/-- The bucket names whose ids are processed automatically (`AUTOMATIC_BUCKETS`:
BUCKET1, BUCKET4, BUCKET5 of `BucketsBase`). -/
def automaticBuckets : List String := [bucketName1, bucketName4, bucketName5]

/-- The waterfall of `MatcherBase.run` after preprocessing: the no-match gisib
rows plus the name-keyed record buckets, in the order of the result dict.
`none` models the AssertionError of `geom_match`. -/
def waterfallBase (gisibW : List GFeature) (idf : List CRecord) :
    Option (List GFeature × List (String × List CRecord)) :=
  let bucket0 := no_matches gisibW idf
  let s1 := select_1_to_1_geometric_matches idf
  let s2 := select_1_bgt_to_n_gisib_overlap5_matches s1.2
  let s4 := select_1_gisib_to_n_bgt_overlap5_matches s2.2.2
  match geom_match s4.2 with
  | none => none
  | some s5 =>
    let s6 := clip_match s5.2
    some (bucket0,
      [(bucketName1, s1.1), (bucketName2, s2.1), (bucketName3, s2.2.1),
       (bucketName4, s4.1), (bucketName5, s5.1), (bucketName6, s6.1),
       (bucketNameRem, s6.2)])

/-- `MatcherBase.run`. -/
def runBase (mr : Rat) (skipTypes : List String) (gisib : List GFeature)
    (records : List ORecord) : Option (List GFeature × List (String × List CRecord)) :=
  waterfallBase (gisibWorking skipTypes gisib) (preprocess mr records)

/-- The run inherited by `GroenobjectenMatcher`: same waterfall, hedge-aware
preprocess. -/
def runGroen (mr : Rat) (skipTypes : List String) (gisib : List GFeature)
    (records : List ORecord) : Option (List GFeature × List (String × List CRecord)) :=
  waterfallBase (gisibWorking skipTypes gisib) (preprocessGroen mr records)

/-- The waterfall of `VerhardingenMatcher.run`: the extra 150%-overlap stage sits
between `geom_match` and `clip_match`. -/
def waterfallVrh (gisibW : List GFeature) (idf : List CRecord) :
    Option (List GFeature × List (String × List CRecord)) :=
  let bucket0 := no_matches gisibW idf
  let s1 := select_1_to_1_geometric_matches idf
  let s2 := select_1_bgt_to_n_gisib_overlap5_matches s1.2
  let s4 := select_1_gisib_to_n_bgt_overlap5_matches s2.2.2
  match geom_match s4.2 with
  | none => none
  | some s5 =>
    let s6 := additional_matches_based_on_overlap s5.2
    let s7 := clip_match s6.2
    some (bucket0,
      [(bucketName1, s1.1), (bucketName2, s2.1), (bucketName3, s2.2.1),
       (bucketName4, s4.1), (bucketName5, s5.1), (bucketNameVrh6, s6.1),
       (bucketNameVrh7, s7.1), (bucketNameRem, s7.2)])

/-- `VerhardingenMatcher.run`. -/
def runVrh (mr : Rat) (skipTypes : List String) (gisib : List GFeature)
    (records : List ORecord) : Option (List GFeature × List (String × List CRecord)) :=
  waterfallVrh (gisibWorking skipTypes gisib) (preprocess mr records)

/-! ### Bucket-to-action processing (src/bucket_processor.py) -/

/-- `pd.DataFrame.duplicated(subset=[key])` over a traversal: flag a row `true`
iff an earlier row shared its key. -/
def dupMark {α : Type} (key : α → Nat) : List Nat → List α → List (α × Bool)
  | _, [] => []
  | seen, r :: rs => (r, decide (key r ∈ seen)) :: dupMark key (key r :: seen) rs

/-- A `change_geometry` output row: the id pair plus the bgt geometry
(abstracted to its area) that replaces the gisib geometry. -/
structure ChangeRec where
  guid : Nat
  lokaalid : Nat
  area : Rat
  deriving DecidableEq

/-- An `add` output row of `match_id_and_add`: attributes copied from the gisib
feature, geometry taken from the bgt side, and a freshly generated id. -/
structure AddRec where
  attrs : Nat
  lokaalid : Nat
  area : Rat
  guid : Nat
  deriving DecidableEq

/-- `only_match_id`: keep just the id pair of every row. -/
def only_match_id (df : List CRecord) : List (Nat × Nat) :=
  df.map (fun r => (r.guid, r.lokaalid))

/-- `df_result` of `match_id_and_remove`: the rows sorted descending by the area
of the row's active geometry (the overlay intersection geometry). -/
def removeSorted (df : List CRecord) : List CRecord :=
  sortDescBy (fun r => r.area) df

/-- The sorted rows with their `duplicated(subset=[bgt_id_col])` flag. -/
def removeMarked (df : List CRecord) : List (CRecord × Bool) :=
  dupMark (fun r => r.lokaalid) [] (removeSorted df)

/-- `df_remove`: gisib ids of the rows that are duplicates by bgt id. -/
def removeIdsOf (df : List CRecord) : List Nat :=
  ((removeMarked df).filter (fun x => x.2)).map (fun x => x.1.guid)

/-- `df_change_geometry`: the first (largest-area) row per bgt id, reduced to the
id pair and the bgt geometry. -/
def changeGeometryOf (df : List CRecord) : List ChangeRec :=
  ((removeMarked df).filter (fun x => !x.2)).map
    (fun x => ⟨x.1.guid, x.1.lokaalid, x.1.area_bgt⟩)

/-- `result_df`: the id pairs of the rows whose gisib id is not in `df_remove`. -/
def keptPairsOf (df : List CRecord) : List (Nat × Nat) :=
  ((removeSorted df).filter (fun r => !decide (r.guid ∈ removeIdsOf df))).map
    (fun r => (r.guid, r.lokaalid))

/-- `match_id_and_remove`: sort by the area of the row's active geometry (the
overlay intersection geometry) descending, keep the first row per bgt id as the
`change_geometry` output, put the gisib ids of the duplicated rows in the remove
output, and keep as match pairs the rows whose gisib id is not removed.
Returns `(result_df, df_change_geometry, df_remove)`. -/
def match_id_and_remove (df : List CRecord) :
    List (Nat × Nat) × List ChangeRec × List Nat :=
  (keptPairsOf df, changeGeometryOf df, removeIdsOf df)

/-- `match_id_and_add`.  `KEEP_GUID` is assigned as `~df.duplicated(...)` of the
*unsorted* input frame (pandas `assign` aligns the series on the row index), so
a row keeps its gisib id iff it is the first row of that id in input order; the
descending sort by `area_bgt` reorders the rows but does not change the flags.
New ids for the add rows come from the fresh-id source `newGuid` (the source
draws `uuid.uuid4()`; identifier generation is external, modelled as a
parameter).  Returns `(result_df, change_geometry_objects, add_objects)`. -/
def match_id_and_add (df : List CRecord) (gisib_df : List GFeature)
    (newGuid : Nat → Nat) : List (Nat × Nat) × List ChangeRec × List AddRec :=
  let df_result := df.map (fun r => (r.guid, r.lokaalid))
  let flagged := dupMark (fun r => r.guid) [] df
  let df_objects := sortDescBy (fun x => x.1.area_bgt) flagged
  let df_add := df_objects.filter (fun x => x.2)
  let add0 : List (Nat × Nat × Rat) := gisib_df.flatMap (fun g =>
    (df_add.filter (fun x => decide (x.1.guid = g.guid))).map
      (fun x => (g.attrs, x.1.lokaalid, x.1.area_bgt)))
  let add_objects := add0.enum.map (fun p =>
    AddRec.mk p.2.1 p.2.2.1 p.2.2.2 (newGuid p.1))
  let chg := (df_objects.filter (fun x => !x.2)).map
    (fun x => ChangeRec.mk x.1.guid x.1.lokaalid x.1.area_bgt)
  let addLoks := df_add.map (fun x => x.1.lokaalid)
  let result := df_result.filter (fun (p : Nat × Nat) => !decide (p.2 ∈ addLoks))
  (result, chg, add_objects)

/-! ### `MatcherBase.__init__` / `_validate_init_args` (metadata level) -/

/-- The metadata of a GeoDataFrame argument that initialization inspects: its
coordinate reference system (possibly unset) and its column names. -/
structure GdfMeta where
  crs : Option Nat
  cols : List String
  deriving DecidableEq

/-- How initialization can fail. -/
inductive InitError where
  /-- `_validate_init_args`: a required column is missing (`ValueError`). -/
  | missingColumn : InitError
  /-- `to_crs` raises in geopandas when the frame being reprojected is naive
  (its own CRS unset) or when the target CRS passed to it is unset. -/
  | missingCrs : InitError
  deriving DecidableEq

/-- `_validate_init_args` column checks (the `isinstance` checks are subsumed by
typing). -/
def validate_init_args (gisib bgt : GdfMeta) (gisibIdCol bgtIdCol gisibHCol bgtHCol : String) :
    Bool :=
  decide (gisibIdCol ∈ gisib.cols) && decide (gisibHCol ∈ gisib.cols) &&
    decide (bgtIdCol ∈ bgt.cols) && decide (bgtHCol ∈ bgt.cols)

/-- `MatcherBase.__init__` at metadata level: validate the columns, then if the
two CRS differ reproject the bgt frame to the gisib CRS
(`self.bgt = self.bgt.to_crs(self.gisib.crs)`) and continue.  The reprojection
raises when the bgt frame is naive (no own CRS to transform from) and when the
gisib CRS handed to `to_crs` is unset; both geopandas error paths are
`.error .missingCrs`. -/
def matcher_init (gisib bgt : GdfMeta)
    (gisibIdCol bgtIdCol gisibHCol bgtHCol : String) :
    Except InitError (GdfMeta × GdfMeta) :=
  if !validate_init_args gisib bgt gisibIdCol bgtIdCol gisibHCol bgtHCol then
    .error .missingColumn
  else if gisib.crs ≠ bgt.crs then
    match gisib.crs, bgt.crs with
    | some c, some _ => .ok (gisib, { bgt with crs := some c })
    | _, _ => .error .missingCrs
  else .ok (gisib, bgt)

/-! ### Notions used by the partition claim (C1) -/

/-- A gisib id occurs in a record bucket. -/
def hasGuid (l : List CRecord) (g : Nat) : Prop := ∃ r ∈ l, r.guid = g

/-- Number of records with the given (gisib id, bgt id) pair. -/
def pairCountO (l : List ORecord) (g t : Nat) : Nat :=
  l.countP (fun r => decide (r.guid = g) && decide (r.lokaalid = t))

/-- As `pairCountO` on annotated records. -/
def pairCount (l : List CRecord) (g t : Nat) : Nat :=
  l.countP (fun r => decide (r.guid = g) && decide (r.lokaalid = t))

/-- The per-bucket gisib-id lists of a run result, no-match bucket first. -/
def bucketIdLists (out : List GFeature × List (String × List CRecord)) : List (List Nat) :=
  (out.1.map (fun f => f.guid)) :: out.2.map (fun b => b.2.map (fun r => r.guid))

/-- Pairwise disjointness of id lists: no id occurs in two of them. -/
def idListsDisjoint (ls : List (List Nat)) : Prop :=
  ls.Pairwise (fun a b => ∀ g, g ∈ a → g ∉ b)

/-! ### Concrete example inputs used in witnesses and counterexamples -/

/-- Overlay-record builder for the concrete examples: id pair, intersection
area, gisib area, bgt area; ground elevation and uniform categorical
attributes. -/
def exO (g t : Nat) (a ag ab : Rat) : ORecord :=
  { guid := g, lokaalid := t, area := a, area_gisib := ag, area_bgt := ab
    hoogte_gisib := some 0, hoogte_bgt := some 0
    onderhoudsplichtige := some 1, typeGisib := "Gras"
    type_gedetailleerd := some 1, beheerder_gedetailleerd := some 1
    objectTypeBgt := "Begroeidterreindeel" }

/-- As `exO` but with the two cardinality counts set to 1. -/
def exRec (g t : Nat) (a ag ab : Rat) : CRecord :=
  { toORecord := exO g t a ag ab, guids_per_lokaalid := 1, lokaalids_per_guid := 1 }

/-- Two records of gisib id 1 that both clear the 0.75 double threshold. -/
def c7dup : List CRecord := [exRec 1 1 0.8 1 1, exRec 1 2 0.8 1 1]

/-- A single qualifying record. -/
def c7ok : List CRecord := [exRec 1 1 0.8 1 1]

/-- Three overlap rows: gisib 1 and gisib 2 both pair with bgt 1, and gisib 1
pairs with bgt 2 with the largest intersection area. -/
def c5df : List CRecord := [exRec 1 1 1 1 1, exRec 2 1 2 1 1, exRec 1 2 5 1 1]

/-- Two rows pairing with bgt 1: gisib 1 with the larger source geometry (10)
but the smaller intersection (1), gisib 2 with the smaller source geometry (5)
but the larger intersection (2). -/
def c3df : List CRecord := [exRec 1 1 1 10 3, exRec 2 1 2 5 4]

/-- Two rows of gisib 1: the bgt-1 pairing comes first in input order but has
the *smaller* bgt geometry (1); the bgt-2 pairing has the larger bgt
geometry (5). -/
def c2df : List CRecord := [exRec 1 1 1 1 1, exRec 1 2 1 1 5]

def c2gisib : List GFeature := [⟨1, "Gras", 7⟩]

/-- The qualifying hedge record: `overlap_gisib = 0.91`, `overlap_bgt = 0.2`. -/
def c8H : ORecord :=
  { guid := 1, lokaalid := 1, area := 0.91, area_gisib := 1, area_bgt := 4.55
    hoogte_gisib := some 0, hoogte_bgt := some 0
    onderhoudsplichtige := some 1, typeGisib := "Haag"
    type_gedetailleerd := some 1, beheerder_gedetailleerd := some 1
    objectTypeBgt := "Vegetatieobject" }

/-- A competing overlap record of the same hedge under another bgt feature:
`overlap_gisib = 0.05`, `overlap_bgt = 0.99`. -/
def c8H2 : ORecord :=
  { guid := 1, lokaalid := 2, area := 0.99, area_gisib := 19.8, area_bgt := 1
    hoogte_gisib := some 0, hoogte_bgt := some 0
    onderhoudsplichtige := some 1, typeGisib := "Haag"
    type_gedetailleerd := some 1, beheerder_gedetailleerd := some 1
    objectTypeBgt := "Wegdeel" }

def c8gisib : List GFeature := [⟨1, "Haag", 3⟩]

/-- The hedge record as it leaves the cardinality annotation. -/
def c8Hc : CRecord :=
  { toORecord := c8H, guids_per_lokaalid := 1, lokaalids_per_guid := 1 }

/-- Two gisib features each covering half of bgt 1 with uniform attributes:
a mergeable 1-bgt-to-N-gisib group (`overlap_bgt` sums to 1, `overlap_gisib`
averages 0.95, one maintainer, one detailed type, one detailed maintainer). -/
def c4r1 : ORecord := exO 1 1 0.95 1 1.9

def c4r2 : ORecord := exO 2 1 0.95 1 1.9

def c4gisib : List GFeature := [⟨1, "Gras", 0⟩, ⟨2, "Gras", 0⟩]

/-- `c4r1` after cardinality annotation: bgt 1 pairs with two gisib ids. -/
def c4R1c : CRecord :=
  { toORecord := c4r1, guids_per_lokaalid := 2, lokaalids_per_guid := 1 }

def c4R2c : CRecord :=
  { toORecord := c4r2, guids_per_lokaalid := 2, lokaalids_per_guid := 1 }

/-- A gisib feature of a skip type, for the C1 counterexample. -/
def c1gisibSkip : List GFeature := [⟨1, "Riet", 0⟩]

/-! ### General list lemmas used by several claims -/

theorem length_dupMark {α : Type} (key : α → Nat) (seen : List Nat) (l : List α) :
    (dupMark key seen l).length = l.length := by
  induction l generalizing seen with
  | nil => rfl
  | cons a l ih => simp [dupMark, ih]

theorem length_filter_partition {α : Type} (p : α → Bool) (l : List α) :
    (l.filter p).length + (l.filter (fun a => !p a)).length = l.length := by
  induction l with
  | nil => rfl
  | cons a l ih => cases h : p a <;> simp [List.filter_cons, h] <;> omega

theorem mem_insertDescBy {α : Type} (f : α → Rat) (a x : α) (l : List α) :
    x ∈ insertDescBy f a l ↔ x = a ∨ x ∈ l := by
  induction l with
  | nil => simp [insertDescBy]
  | cons b bs ih =>
    by_cases h : f b < f a
    · simp [insertDescBy, h]
    · simp [insertDescBy, h, ih]
      tauto

theorem mem_sortDescBy_aux {α : Type} (f : α → Rat) (l acc : List α) (x : α) :
    x ∈ l.foldl (fun acc a => insertDescBy f a acc) acc ↔ x ∈ acc ∨ x ∈ l := by
  induction l generalizing acc with
  | nil => simp
  | cons a l ih =>
    simp only [List.foldl_cons, ih, mem_insertDescBy, List.mem_cons]
    tauto

theorem mem_sortDescBy {α : Type} (f : α → Rat) (l : List α) (x : α) :
    x ∈ sortDescBy f l ↔ x ∈ l := by
  simp [sortDescBy, mem_sortDescBy_aux]

theorem length_insertDescBy {α : Type} (f : α → Rat) (a : α) (l : List α) :
    (insertDescBy f a l).length = l.length + 1 := by
  induction l with
  | nil => rfl
  | cons b bs ih => by_cases h : f b < f a <;> simp [insertDescBy, h, ih]

theorem length_sortDescBy_aux {α : Type} (f : α → Rat) (l acc : List α) :
    (l.foldl (fun acc a => insertDescBy f a acc) acc).length = acc.length + l.length := by
  induction l generalizing acc with
  | nil => simp
  | cons a l ih => simp [List.foldl_cons, ih, length_insertDescBy]; omega

theorem length_sortDescBy {α : Type} (f : α → Rat) (l : List α) :
    (sortDescBy f l).length = l.length := by
  simp [sortDescBy, length_sortDescBy_aux]

theorem mem_insertAscBy {α : Type} (f : α → Rat) (a x : α) (l : List α) :
    x ∈ insertAscBy f a l ↔ x = a ∨ x ∈ l := by
  induction l with
  | nil => simp [insertAscBy]
  | cons b bs ih =>
    by_cases h : f a < f b
    · simp [insertAscBy, h]
    · simp [insertAscBy, h, ih]
      tauto

theorem mem_sortAscBy_aux {α : Type} (f : α → Rat) (l acc : List α) (x : α) :
    x ∈ l.foldl (fun acc a => insertAscBy f a acc) acc ↔ x ∈ acc ∨ x ∈ l := by
  induction l generalizing acc with
  | nil => simp
  | cons a l ih =>
    simp only [List.foldl_cons, ih, mem_insertAscBy, List.mem_cons]
    tauto

theorem mem_sortAscBy {α : Type} (f : α → Rat) (l : List α) (x : α) :
    x ∈ sortAscBy f l ↔ x ∈ l := by
  simp [sortAscBy, mem_sortAscBy_aux]

theorem pairwise_insertDescBy {α : Type} (f : α → Rat) (a : α) (l : List α)
    (h : l.Pairwise (fun x y => f y ≤ f x)) :
    (insertDescBy f a l).Pairwise (fun x y => f y ≤ f x) := by
  induction l with
  | nil => simp [insertDescBy]
  | cons b bs ih =>
    rw [List.pairwise_cons] at h
    obtain ⟨hb, hbs⟩ := h
    by_cases hc : f b < f a
    · simp only [insertDescBy, if_pos hc]
      refine List.pairwise_cons.mpr ⟨?_, List.pairwise_cons.mpr ⟨hb, hbs⟩⟩
      intro y hy
      rcases List.mem_cons.mp hy with rfl | hy
      · exact le_of_lt hc
      · exact le_trans (hb y hy) (le_of_lt hc)
    · simp only [insertDescBy, if_neg hc]
      refine List.pairwise_cons.mpr ⟨?_, ih hbs⟩
      intro y hy
      rcases (mem_insertDescBy f a y bs).mp hy with rfl | hy
      · exact not_lt.mp hc
      · exact hb y hy

theorem pairwise_sortDescBy_aux {α : Type} (f : α → Rat) (l acc : List α)
    (h : acc.Pairwise (fun x y => f y ≤ f x)) :
    (l.foldl (fun acc a => insertDescBy f a acc) acc).Pairwise (fun x y => f y ≤ f x) := by
  induction l generalizing acc with
  | nil => simpa using h
  | cons a l ih => exact ih _ (pairwise_insertDescBy f a acc h)

theorem pairwise_sortDescBy {α : Type} (f : α → Rat) (l : List α) :
    (sortDescBy f l).Pairwise (fun x y => f y ≤ f x) :=
  pairwise_sortDescBy_aux f l [] (by simp)

theorem any_sortDescBy {α : Type} (f : α → Rat) (p : α → Bool) (l : List α) :
    (sortDescBy f l).any p = l.any p := by
  have h : (sortDescBy f l).any p = true ↔ l.any p = true := by
    simp [List.any_eq_true, mem_sortDescBy]
  cases hl : l.any p
  · cases hs : (sortDescBy f l).any p
    · rfl
    · rw [hl] at h
      exact absurd (h.mp hs) Bool.false_ne_true
  · exact h.mpr hl

theorem dupMark_fst_mem {α : Type} (key : α → Nat) (seen : List Nat) (l : List α)
    (x : α) (b : Bool) (h : (x, b) ∈ dupMark key seen l) : x ∈ l := by
  induction l generalizing seen with
  | nil => simp [dupMark] at h
  | cons a as ih =>
    simp only [dupMark, List.mem_cons, Prod.mk.injEq] at h
    rcases h with ⟨hx, _⟩ | h
    · exact hx ▸ List.mem_cons_self a as
    · exact List.mem_cons_of_mem a (ih (key a :: seen) h)

theorem dupMark_false_not_seen {α : Type} (key : α → Nat) (seen : List Nat) (l : List α)
    (x : α) (h : (x, false) ∈ dupMark key seen l) : key x ∉ seen := by
  induction l generalizing seen with
  | nil => simp [dupMark] at h
  | cons a as ih =>
    simp only [dupMark, List.mem_cons, Prod.mk.injEq] at h
    rcases h with ⟨hx, hb⟩ | h
    · subst hx
      intro hs
      simp [hs] at hb
    · intro hs
      exact (ih (key a :: seen) h) (List.mem_cons_of_mem _ hs)

theorem dupMark_false_max {α : Type} (key : α → Nat) (f : α → Rat) (seen : List Nat)
    (l : List α) (c : α)
    (hs : l.Pairwise (fun x y => f y ≤ f x))
    (h : (c, false) ∈ dupMark key seen l) :
    ∀ r ∈ l, key r = key c → f r ≤ f c := by
  induction l generalizing seen with
  | nil => simp [dupMark] at h
  | cons a as ih =>
    rw [List.pairwise_cons] at hs
    obtain ⟨ha, has⟩ := hs
    simp only [dupMark, List.mem_cons, Prod.mk.injEq] at h
    intro r hr hkey
    rcases h with ⟨hx, _⟩ | h
    · subst hx
      rcases List.mem_cons.mp hr with rfl | hr
      · exact le_refl _
      · exact ha r hr
    · have hnot := dupMark_false_not_seen key (key a :: seen) as c h
      rcases List.mem_cons.mp hr with rfl | hr
      · exact absurd (by rw [← hkey]; exact List.mem_cons_self _ _) hnot
      · exact ih (key a :: seen) has h r hr hkey

theorem countP_insertDescBy {α : Type} (f : α → Rat) (p : α → Bool) (a : α)
    (l : List α) :
    (insertDescBy f a l).countP p = l.countP p + (if p a = true then 1 else 0) := by
  induction l with
  | nil => simp [insertDescBy, List.countP_cons]
  | cons b bs ih =>
    by_cases h : f b < f a
    · simp only [insertDescBy, if_pos h, List.countP_cons]
    · simp only [insertDescBy, if_neg h, List.countP_cons, ih]
      omega

theorem countP_sortDescBy_aux {α : Type} (f : α → Rat) (p : α → Bool) (l acc : List α) :
    (l.foldl (fun acc a => insertDescBy f a acc) acc).countP p =
      acc.countP p + l.countP p := by
  induction l generalizing acc with
  | nil => simp
  | cons a l ih =>
    simp only [List.foldl_cons, List.countP_cons]
    rw [ih, countP_insertDescBy]
    omega

theorem countP_sortDescBy {α : Type} (f : α → Rat) (p : α → Bool) (l : List α) :
    (sortDescBy f l).countP p = l.countP p := by
  simp [sortDescBy, countP_sortDescBy_aux]

theorem countP_dupMark {α : Type} (key : α → Nat) (q : α → Bool) (seen : List Nat)
    (l : List α) :
    (dupMark key seen l).countP (fun x => q x.1) = l.countP q := by
  induction l generalizing seen with
  | nil => rfl
  | cons a l ih => simp [dupMark, List.countP_cons, ih]

theorem countP_and_partition {α : Type} (q p : α → Bool) (l : List α) :
    l.countP (fun x => q x && p x) + l.countP (fun x => q x && !p x) = l.countP q := by
  induction l with
  | nil => rfl
  | cons a l ih =>
    cases hq : q a <;> cases hp : p a <;> simp [List.countP_cons, hq, hp] <;> omega

theorem dupMark_false_count {α : Type} (key : α → Nat) (t : Nat) (seen : List Nat)
    (l : List α) :
    ((dupMark key seen l).filter (fun x => !x.2 && decide (key x.1 = t))).length =
      if t ∈ seen then 0 else if l.any (fun r => decide (key r = t)) then 1 else 0 := by
  induction l generalizing seen with
  | nil => simp [dupMark]
  | cons a as ih =>
    simp only [dupMark, List.filter_cons, List.any_cons]
    by_cases hk : key a = t
    · subst hk
      by_cases hseen : key a ∈ seen
      · have htail := ih (key a :: seen)
        simp [hseen, htail]
      · have htail := ih (key a :: seen)
        simp [hseen, htail]
    · have htail := ih (key a :: seen)
      have hmem : (t ∈ key a :: seen) ↔ t ∈ seen := by
        constructor
        · intro h
          rcases List.mem_cons.mp h with h | h
          · exact absurd h.symm hk
          · exact h
        · exact fun h => List.mem_cons_of_mem _ h
      by_cases hseen : t ∈ seen
      · simp [hk, hseen, htail, hmem]
      · simp [hk, hseen, htail, hmem]

/-! ### Claim C6 -/

/-- C6: `filter_overlap_min_ratio` retains an overlap record if and only if at
least one of its two overlap ratios reaches the configured minimum AND the two
ratios sum to more than 0.60; a record failing either part of the double gate is
discarded. -/
theorem c6_filter_gate (mr : Rat) (l : List ORecord) (r : ORecord) :
    r ∈ filter_overlap_min mr l ↔
      r ∈ l ∧ ((mr ≤ r.overlap_bgt ∨ mr ≤ r.overlap_gisib) ∧
        (0.6 : Rat) < r.overlap_bgt + r.overlap_gisib) := by
  simp [filter_overlap_min, gateMin, List.mem_filter]

/-! ### Claim C9 -/

/-- C9 counterexample: with all required columns present and the two coordinate
reference systems set but different, initialization succeeds (the bgt frame is
reprojected to the gisib CRS) instead of failing fatally, contradicting the
claim that a mismatched CRS aborts the run. -/
theorem c9_crs_mismatch_counterexample :
    matcher_init ⟨some 28992, ["GUID", "HOOGTE"]⟩ ⟨some 4326, ["LID", "HOOGTE"]⟩
        "GUID" "LID" "HOOGTE" "HOOGTE" =
      .ok (⟨some 28992, ["GUID", "HOOGTE"]⟩, ⟨some 28992, ["LID", "HOOGTE"]⟩) := by
  rfl

/-- C9 amended: when the required columns are present and the two coordinate
reference systems are mismatched, initialization does not abort as long as
*both* CRS are set: the target frame is reprojected to the source CRS and
processing proceeds; when either CRS is unset the reprojection itself raises
(`to_crs` on a naive frame, or with an unknown target CRS). -/
theorem c9_crs_amended (gisib bgt : GdfMeta) (gid bid gh bh : String)
    (hv : validate_init_args gisib bgt gid bid gh bh = true)
    (hne : bgt.crs ≠ gisib.crs) :
    (∀ c d : Nat, gisib.crs = some c → bgt.crs = some d →
      matcher_init gisib bgt gid bid gh bh = .ok (gisib, { bgt with crs := some c })) ∧
      ((gisib.crs = none ∨ bgt.crs = none) →
        matcher_init gisib bgt gid bid gh bh = .error .missingCrs) := by
  have hne' : gisib.crs ≠ bgt.crs := fun h => hne h.symm
  constructor
  · intro c d hc hd
    simp [matcher_init, hv, hne', hc, hd]
    intro h
    subst h
    exact absurd (hc.trans hd.symm) hne'
  · rintro (h | h)
    · rcases hb : bgt.crs with _ | d <;> simp [matcher_init, hv, hne', h, hb]
      exact hne' (h.trans hb.symm)
    · rcases hg : gisib.crs with _ | c <;> simp [matcher_init, hv, hne', h, hg]
      exact hne' (hg.trans h.symm)

theorem c9_crs_amended_witness :
    matcher_init ⟨some 28992, ["G", "H"]⟩ ⟨some 7415, ["L", "H"]⟩ "G" "L" "H" "H" =
      .ok (⟨some 28992, ["G", "H"]⟩, ⟨some 28992, ["L", "H"]⟩) ∧
      matcher_init ⟨some 28992, ["G", "H"]⟩ ⟨none, ["L", "H"]⟩ "G" "L" "H" "H" =
        .error .missingCrs :=
  ⟨(c9_crs_amended ⟨some 28992, ["G", "H"]⟩ ⟨some 7415, ["L", "H"]⟩ "G" "L" "H" "H"
      (by decide) (by decide)).1 28992 7415 rfl rfl,
    (c9_crs_amended ⟨some 28992, ["G", "H"]⟩ ⟨none, ["L", "H"]⟩ "G" "L" "H" "H"
      (by decide) (by decide)).2 (Or.inr rfl)⟩

/-! ### Claim C7 -/

/-- C7: if more than one qualifying record (both overlap ratios above 0.75)
survives for the same gisib id, `geom_match` raises its AssertionError
(modelled as `none`) instead of silently picking one; when every gisib id has at
most one qualifying record it returns the qualifying records and the remaining
rows without raising. -/
theorem c7_geom_match_assert (idf : List CRecord) :
    ((∃ r ∈ idf.filter geom75,
        1 < ((idf.filter geom75).filter (fun q => decide (q.guid = r.guid))).length) →
      geom_match idf = none) ∧
    ((∀ r ∈ idf.filter geom75,
        ((idf.filter geom75).filter (fun q => decide (q.guid = r.guid))).length ≤ 1) →
      geom_match idf = some (idf.filter geom75,
        idf.filter (fun r => !((idf.filter geom75).any (fun q => decide (q.guid = r.guid)))))) := by
  constructor
  · intro h
    unfold geom_match
    rw [if_pos]
    simp only [List.any_eq_true, decide_eq_true_eq]
    exact h
  · intro h
    unfold geom_match
    rw [if_neg]
    simp only [List.any_eq_true, decide_eq_true_eq, not_exists]
    intro r
    simp only [not_and, not_lt]
    exact fun hr => h r hr

theorem c7_geom_match_assert_witness :
    geom_match c7dup = none ∧
      geom_match c7ok = some (c7ok.filter geom75,
        c7ok.filter (fun r => !((c7ok.filter geom75).any (fun q => decide (q.guid = r.guid))))) :=
  ⟨(c7_geom_match_assert c7dup).1 (by with_unfolding_all decide),
    (c7_geom_match_assert c7ok).2 (by with_unfolding_all decide)⟩

/-! ### Claim C5 -/

/-- C5 counterexample: on `c5df`, one Remove (gisib 1, the smaller duplicate
under bgt 1) plus one kept pair (gisib 2) is 2, but the input has 3 records:
the kept-pairs output also drops the non-duplicate row of a removed gisib id,
so `count(Remove) + count(Keep pairs)` undercounts the input. -/
theorem c5_conservation_counterexample :
    ¬ ((match_id_and_remove c5df).2.2.length + (match_id_and_remove c5df).1.length =
      c5df.length) := by
  with_unfolding_all decide

/-- C5 amended: the conservation law the code satisfies is
`count(Remove actions) + count(ChangeGeometry records) = count(input records)`;
the kept-pairs output can be strictly smaller because every row of a removed
gisib id is excluded from it. -/
theorem c5_conservation_amended (df : List CRecord) :
    (match_id_and_remove df).2.2.length + (match_id_and_remove df).2.1.length =
      df.length := by
  show (removeIdsOf df).length + (changeGeometryOf df).length = df.length
  unfold removeIdsOf changeGeometryOf
  rw [List.length_map, List.length_map]
  have h := length_filter_partition (fun (x : CRecord × Bool) => x.2) (removeMarked df)
  have hm : (removeMarked df).length = df.length := by
    unfold removeMarked
    rw [length_dupMark]
    unfold removeSorted
    rw [length_sortDescBy]
  omega

/-! ### Claim C3 -/

/-- C3 counterexample: on `c3df`, `match_id_and_remove` retains the pairing of
gisib 2 (largest *intersection* area, by which the code sorts) and removes
gisib 1, although the group member with the largest *source-geometry* area is
gisib 1 — so the retained pairing is not the one with the largest
source-geometry area. -/
theorem c3_largest_source_area_counterexample :
    (match_id_and_remove c3df).2.1 = [⟨2, 1, 4⟩] ∧
      (match_id_and_remove c3df).2.2 = [1] ∧
      ∃ r ∈ c3df, r.lokaalid = 1 ∧ (exRec 2 1 2 5 4).area_gisib < r.area_gisib := by
  with_unfolding_all decide

/-- C3 amended: for every group of input records sharing a bgt id, exactly one
pairing is retained as a ChangeGeometry record — one whose *intersection
geometry* (the row's active geometry) has the largest area within the group —
and every other member is emitted as a Remove action keyed by its gisib id.
The third conjunct makes "every other member" exact: per gisib id, the number
of Remove actions keyed by that id plus the number of ChangeGeometry records
of that id equals the number of input records of that id, so each non-retained
record contributes exactly one Remove action (with multiplicity); the fourth
conjunct ties every Remove id back to an input record. -/
theorem c3_remove_amended (df : List CRecord) :
    (∀ t : Nat,
      ((match_id_and_remove df).2.1.filter (fun c => decide (c.lokaalid = t))).length =
        if df.any (fun r => decide (r.lokaalid = t)) then 1 else 0) ∧
    (∀ c ∈ (match_id_and_remove df).2.1, ∃ r ∈ df, r.guid = c.guid ∧
        r.lokaalid = c.lokaalid ∧ r.area_bgt = c.area ∧
        ∀ q ∈ df, q.lokaalid = c.lokaalid → q.area ≤ r.area) ∧
    (∀ g : Nat,
      (match_id_and_remove df).2.2.countP (fun x => decide (x = g)) +
        (match_id_and_remove df).2.1.countP (fun c => decide (c.guid = g)) =
      df.countP (fun r => decide (r.guid = g))) ∧
    (∀ g ∈ (match_id_and_remove df).2.2, ∃ r ∈ df, r.guid = g) := by
  refine ⟨?_, ?_, ?_, ?_⟩
  · intro t
    show ((changeGeometryOf df).filter (fun c => decide (c.lokaalid = t))).length = _
    unfold changeGeometryOf removeMarked
    rw [List.filter_map, List.length_map, List.filter_filter]
    have hpred : (fun (a : CRecord × Bool) =>
        ((fun c : ChangeRec => decide (c.lokaalid = t)) ∘
          fun x : CRecord × Bool => ChangeRec.mk x.1.guid x.1.lokaalid x.1.area_bgt) a && !a.2) =
        (fun a : CRecord × Bool => !a.2 && decide (a.1.lokaalid = t)) := by
      funext a
      simp [Function.comp, Bool.and_comm]
    rw [hpred, dupMark_false_count (fun r : CRecord => r.lokaalid) t [] (removeSorted df)]
    simp only [List.not_mem_nil, if_false]
    unfold removeSorted
    rw [any_sortDescBy]
  · intro c hc
    have hc' : c ∈ changeGeometryOf df := hc
    simp only [changeGeometryOf, List.mem_map, List.mem_filter] at hc'
    obtain ⟨x, ⟨hxm, hx2⟩, rfl⟩ := hc'
    have hx2' : x.2 = false := by simpa using hx2
    have hxm' : (x.1, false) ∈ removeMarked df := by
      rw [← hx2']
      exact hxm
    unfold removeMarked at hxm'
    refine ⟨x.1, ?_, rfl, rfl, rfl, ?_⟩
    · have hmem := dupMark_fst_mem (fun r : CRecord => r.lokaalid) [] (removeSorted df)
        x.1 false hxm'
      unfold removeSorted at hmem
      rwa [mem_sortDescBy] at hmem
    · intro q hq hkey
      have hq' : q ∈ removeSorted df := by
        unfold removeSorted
        rw [mem_sortDescBy]
        exact hq
      have hmax := dupMark_false_max (fun r : CRecord => r.lokaalid) (fun r : CRecord => r.area)
        [] (removeSorted df) x.1 (pairwise_sortDescBy (fun r : CRecord => r.area) df) hxm'
      exact hmax q hq' hkey
  · intro g
    show (removeIdsOf df).countP (fun x => decide (x = g)) +
        (changeGeometryOf df).countP (fun c => decide (c.guid = g)) =
      df.countP (fun r => decide (r.guid = g))
    have h1 : (removeIdsOf df).countP (fun x => decide (x = g)) =
        (removeMarked df).countP (fun x => decide (x.1.guid = g) && x.2) := by
      unfold removeIdsOf
      rw [List.countP_map, List.countP_filter]
      rfl
    have h2 : (changeGeometryOf df).countP (fun c => decide (c.guid = g)) =
        (removeMarked df).countP (fun x => decide (x.1.guid = g) && !x.2) := by
      unfold changeGeometryOf
      rw [List.countP_map, List.countP_filter]
      rfl
    have h3 : (removeMarked df).countP (fun x => decide (x.1.guid = g)) =
        df.countP (fun r => decide (r.guid = g)) := by
      unfold removeMarked removeSorted
      exact (countP_dupMark (fun r : CRecord => r.lokaalid)
          (fun r : CRecord => decide (r.guid = g)) []
          (sortDescBy (fun r : CRecord => r.area) df)).trans
        (countP_sortDescBy (fun r : CRecord => r.area)
          (fun r : CRecord => decide (r.guid = g)) df)
    rw [h1, h2, ← h3]
    exact countP_and_partition (fun x : CRecord × Bool => decide (x.1.guid = g))
      (fun x : CRecord × Bool => x.2) (removeMarked df)
  · intro g hg
    have hg' : g ∈ removeIdsOf df := hg
    simp only [removeIdsOf, List.mem_map, List.mem_filter] at hg'
    obtain ⟨x, ⟨hxm, _⟩, rfl⟩ := hg'
    unfold removeMarked at hxm
    refine ⟨x.1, ?_, rfl⟩
    have hmem := dupMark_fst_mem (fun r : CRecord => r.lokaalid) [] (removeSorted df)
      x.1 x.2 hxm
    unfold removeSorted at hmem
    rwa [mem_sortDescBy] at hmem

theorem c3_remove_amended_witness :
    (((match_id_and_remove c3df).2.1.filter (fun c => decide (c.lokaalid = 1))).length =
      if c3df.any (fun r => decide (r.lokaalid = 1)) then 1 else 0) ∧
      ((match_id_and_remove c3df).2.2.countP (fun x => decide (x = 1)) +
          (match_id_and_remove c3df).2.1.countP (fun c => decide (c.guid = 1)) =
        c3df.countP (fun r => decide (r.guid = 1))) ∧
      (∃ r ∈ c3df, r.guid = 1) :=
  ⟨(c3_remove_amended c3df).1 1,
    (c3_remove_amended c3df).2.2.1 1,
    (c3_remove_amended c3df).2.2.2 1 (by with_unfolding_all decide)⟩

/-! ### Claim C2 -/

/-- C2: evaluation of `match_id_and_add` at the failing input.  `KEEP_GUID` is
computed by `df.duplicated` on the *unsorted* frame and re-aligned on the row
index, so the retained ChangeGeometry row is the first row of its gisib id in
input order — here the bgt-1 pairing with target-geometry area 1 — although the
group member with the largest target-geometry area (5) is the bgt-2 row, which
is emitted as an Add instead.  (The ChangeGeometry count does equal the number
of distinct gisib ids, and the Add row copies the gisib attributes, takes the
bgt geometry and receives the freshly generated id.) -/
theorem c2_keep_not_largest_eval :
    (match_id_and_add c2df c2gisib (fun i => 1000 + i)).2.1 = [⟨1, 1, 1⟩] ∧
      (match_id_and_add c2df c2gisib (fun i => 1000 + i)).2.2 = [⟨7, 2, 5, 1000⟩] ∧
      (match_id_and_add c2df c2gisib (fun i => 1000 + i)).1 = [(1, 1)] ∧
      (∃ r ∈ c2df, r.lokaalid = 2 ∧ ∀ q ∈ c2df, q.area_bgt ≤ r.area_bgt) := by
  with_unfolding_all decide

/-! ### Claim C8 -/

/-- C8 amended: the hedge pre-filter of the green-objects matcher, applied
between the min-ratio filter and the cardinality annotation, retains a record
iff it is a qualifying hedge record (`TYPE == "Haag"`, `overlap_gisib > 0.9`,
`ObjectType == "Vegetatieobject"`) or its gisib id has no qualifying hedge
record at all; all competing records of a qualifying hedge's gisib id are
discarded.  The surviving records then flow through the ordinary waterfall. -/
theorem c8_prefilter_amended (mr : Rat) (l : List ORecord) (r : ORecord) :
    (r ∈ filter_hagen l ↔ r ∈ l ∧ (hagenQual r = true ∨
      ∀ q ∈ l, q.guid = r.guid → hagenQual q = false)) ∧
    preprocessGroen mr l =
      get_perfect_rel_matches (add_intersection_counts
        (filter_hagen (filter_overlap_min mr l))) := by
  refine ⟨?_, rfl⟩
  unfold filter_hagen
  simp only [List.mem_append, List.mem_filter, Bool.not_eq_true', decide_eq_false_iff_not,
    List.mem_map, not_exists, not_and]
  constructor
  · intro h
    rcases h with ⟨hl, hng⟩ | ⟨hl, hq⟩
    · refine ⟨hl, Or.inr ?_⟩
      intro q hq hqg
      by_contra hqq
      simp only [Bool.not_eq_false] at hqq
      exact hng q ⟨hq, hqq⟩ hqg
    · exact ⟨hl, Or.inl hq⟩
  · intro ⟨hl, h⟩
    rcases h with hq | hall
    · exact Or.inr ⟨hl, hq⟩
    · refine Or.inl ⟨hl, ?_⟩
      intro q hqf hqg
      exact absurd hqf.2 (by simp [hall q hqf.1 hqg])

/-- C8 counterexample: the qualifying hedge record (`overlap_gisib = 0.91 >
0.9`) is *not* classified directly into the accepted set: the green-objects run
sends it through the waterfall and it ends in the `clip_match` bucket, which is
not among the automatically accepted buckets (`geom_1_to_1`, `gisib_split`,
`geom_75_match`). -/
theorem c8_bypass_counterexample :
    hagenQual c8H = true ∧
      runGroen (0.1 : Rat) [] c8gisib [c8H, c8H2] =
        some ([], [(bucketName1, []), (bucketName2, []), (bucketName3, []),
          (bucketName4, []), (bucketName5, []), (bucketName6, [c8Hc]),
          (bucketNameRem, [])]) ∧
      bucketName6 ∉ automaticBuckets := by
  with_unfolding_all decide

/-! ### Claim C4 -/

/-- C4: evaluation at the failing input.  The two records form a *mergeable*
group (they are exactly `_select_1_bgt_to_n_gisib_overlap5_merge`'s guids), yet
`MatcherBase.run` returns them under the bucket name `"bgt_split"`
(`BucketsBase.BUCKET2.value`), while the name `"gisib_merge"`
(`BucketsBase.BUCKET3.value`) receives the non-mergeable split bucket — empty
here.  The claim (and the code's own comments) put the mergeable group under
`gisib_merge`. -/
theorem c4_merge_under_bgt_split_eval :
    mergeGuids (build_bgt_gisib_grouped (preprocess (0.1 : Rat) [c4r1, c4r2])) = [1, 2] ∧
      runBase (0.1 : Rat) [] c4gisib [c4r1, c4r2] =
        some ([], [(bucketName1, []), ("bgt_split", [c4R1c, c4R2c]), ("gisib_merge", []),
          (bucketName4, []), (bucketName5, []), (bucketName6, []), (bucketNameRem, [])]) := by
  with_unfolding_all decide

/-! ### Claim C10 -/

/-- C10: a gisib id that appears in the Remove output of `match_id_and_remove`
never appears in the kept-pairs output — every row of that gisib id, including
non-duplicate rows under other bgt ids, is excluded from the kept pairs. -/
theorem c10_removed_excluded (df : List CRecord) (g : Nat)
    (h : g ∈ (match_id_and_remove df).2.2) :
    ∀ p ∈ (match_id_and_remove df).1, p.1 ≠ g := by
  intro p hp
  have h' : g ∈ removeIdsOf df := h
  have hp' : p ∈ keptPairsOf df := hp
  simp only [keptPairsOf, List.mem_map, List.mem_filter, Bool.not_eq_true',
    decide_eq_false_iff_not] at hp'
  obtain ⟨r, ⟨_, hnot⟩, rfl⟩ := hp'
  show r.guid ≠ g
  intro hg
  exact hnot (hg ▸ h')

theorem c10_removed_excluded_witness :
    1 ∈ (match_id_and_remove c5df).2.2 ∧
      ∀ p ∈ (match_id_and_remove c5df).1, p.1 ≠ 1 :=
  ⟨by with_unfolding_all decide, c10_removed_excluded c5df 1 (by with_unfolding_all decide)⟩

/-! ### Claim C1: guid-membership lemmas for the waterfall stages -/

theorem hasGuid_cons (r : CRecord) (l : List CRecord) (g : Nat) :
    hasGuid (r :: l) g ↔ r.guid = g ∨ hasGuid l g := by
  unfold hasGuid
  simp only [List.mem_cons]
  constructor
  · rintro ⟨q, (rfl | hq), rfl⟩
    · exact Or.inl rfl
    · exact Or.inr ⟨q, hq, rfl⟩
  · rintro (h | ⟨q, hq, rfl⟩)
    · exact ⟨r, Or.inl rfl, h⟩
    · exact ⟨q, Or.inr hq, rfl⟩

theorem hasGuid_append (a b : List CRecord) (g : Nat) :
    hasGuid (a ++ b) g ↔ hasGuid a g ∨ hasGuid b g := by
  unfold hasGuid
  simp only [List.mem_append]
  constructor
  · rintro ⟨r, h | h, rfl⟩
    · exact Or.inl ⟨r, h, rfl⟩
    · exact Or.inr ⟨r, h, rfl⟩
  · rintro (⟨r, h, rfl⟩ | ⟨r, h, rfl⟩)
    · exact ⟨r, Or.inl h, rfl⟩
    · exact ⟨r, Or.inr h, rfl⟩

theorem hasGuid_filter_sub (l : List CRecord) (p : CRecord → Bool) (g : Nat)
    (h : hasGuid (l.filter p) g) : hasGuid l g := by
  obtain ⟨r, hr, rfl⟩ := h
  exact ⟨r, (List.mem_filter.mp hr).1, rfl⟩

theorem hasGuid_filter_or_not (l : List CRecord) (p : CRecord → Bool) (g : Nat) :
    (hasGuid (l.filter p) g ∨ hasGuid (l.filter (fun r => !p r)) g) ↔ hasGuid l g := by
  constructor
  · rintro (h | h) <;> exact hasGuid_filter_sub _ _ _ h
  · rintro ⟨r, hr, rfl⟩
    cases hp : p r
    · exact Or.inr ⟨r, List.mem_filter.mpr ⟨hr, by simp [hp]⟩, rfl⟩
    · exact Or.inl ⟨r, List.mem_filter.mpr ⟨hr, hp⟩, rfl⟩

theorem hasGuid_filter_pred_disjoint (l : List CRecord) (p : CRecord → Bool)
    (hcons : ∀ r ∈ l, ∀ q ∈ l, r.guid = q.guid → p r = p q) (g : Nat)
    (h1 : hasGuid (l.filter p) g) : ¬ hasGuid (l.filter (fun r => !p r)) g := by
  obtain ⟨r, hr, rfl⟩ := h1
  rintro ⟨q, hq, hgq⟩
  rw [List.mem_filter] at hr hq
  have hpq := hcons r hr.1 q hq.1 hgq.symm
  rw [hr.2] at hpq
  have hq2 := hq.2
  rw [← hpq] at hq2
  simp at hq2

theorem hasGuid_filter_isin (l : List CRecord) (S : List Nat) (g : Nat) :
    hasGuid (l.filter (fun r => decide (r.guid ∈ S))) g ↔ hasGuid l g ∧ g ∈ S := by
  constructor
  · rintro ⟨r, hr, rfl⟩
    rw [List.mem_filter] at hr
    exact ⟨⟨r, hr.1, rfl⟩, by simpa using hr.2⟩
  · rintro ⟨⟨r, hr, rfl⟩, hS⟩
    exact ⟨r, List.mem_filter.mpr ⟨hr, by simpa using hS⟩, rfl⟩

theorem hasGuid_filter_notin (l : List CRecord) (S : List Nat) (g : Nat) :
    hasGuid (l.filter (fun r => !decide (r.guid ∈ S))) g ↔ hasGuid l g ∧ g ∉ S := by
  constructor
  · rintro ⟨r, hr, rfl⟩
    rw [List.mem_filter] at hr
    exact ⟨⟨r, hr.1, rfl⟩, by simpa using hr.2⟩
  · rintro ⟨⟨r, hr, rfl⟩, hS⟩
    exact ⟨r, List.mem_filter.mpr ⟨hr, by simpa using hS⟩, rfl⟩

theorem hasGuid_filter_notin2 (l : List CRecord) (S T : List Nat) (g : Nat) :
    hasGuid (l.filter (fun r => !(decide (r.guid ∈ S) || decide (r.guid ∈ T)))) g ↔
      hasGuid l g ∧ g ∉ S ∧ g ∉ T := by
  constructor
  · rintro ⟨r, hr, rfl⟩
    rw [List.mem_filter] at hr
    have h2 := hr.2
    simp only [Bool.not_eq_true', Bool.or_eq_false_iff, decide_eq_false_iff_not] at h2
    exact ⟨⟨r, hr.1, rfl⟩, h2.1, h2.2⟩
  · rintro ⟨⟨r, hr, rfl⟩, hS, hT⟩
    refine ⟨r, List.mem_filter.mpr ⟨hr, ?_⟩, rfl⟩
    simp [hS, hT]

theorem any_guid_eq (b : List CRecord) (g : Nat) :
    (b.any (fun q => decide (q.guid = g)) = true) ↔ hasGuid b g := by
  unfold hasGuid
  simp [List.any_eq_true]

theorem hasGuid_filter_not_anyguid (l b : List CRecord) (g : Nat) :
    hasGuid (l.filter (fun r => !(b.any (fun q => decide (q.guid = r.guid))))) g ↔
      hasGuid l g ∧ ¬ hasGuid b g := by
  constructor
  · rintro ⟨r, hr, rfl⟩
    rw [List.mem_filter] at hr
    have h2 := hr.2
    simp only [Bool.not_eq_true'] at h2
    refine ⟨⟨r, hr.1, rfl⟩, ?_⟩
    intro hb
    rw [← any_guid_eq] at hb
    rw [hb] at h2
    cases h2
  · rintro ⟨⟨r, hr, rfl⟩, hnb⟩
    refine ⟨r, List.mem_filter.mpr ⟨hr, ?_⟩, rfl⟩
    simp only [Bool.not_eq_true']
    cases hany : b.any (fun q => decide (q.guid = r.guid))
    · rfl
    · exact absurd ((any_guid_eq b r.guid).mp hany) hnb

theorem hasGuid_dedupByGuid (l : List CRecord) (seen : List Nat) (g : Nat)
    (hg : g ∉ seen) : hasGuid (dedupByGuid seen l) g ↔ hasGuid l g := by
  induction l generalizing seen with
  | nil => simp [dedupByGuid]
  | cons r rs ih =>
    by_cases hseen : r.guid ∈ seen
    · simp only [dedupByGuid, if_pos hseen]
      rw [ih seen hg, hasGuid_cons]
      have hne : r.guid ≠ g := fun he => hg (he ▸ hseen)
      tauto
    · simp only [dedupByGuid, if_neg hseen]
      rw [hasGuid_cons, hasGuid_cons]
      by_cases hrg : r.guid = g
      · tauto
      · have hg' : g ∉ r.guid :: seen := by
          intro hc
          rcases List.mem_cons.mp hc with h | h
          · exact hrg h.symm
          · exact hg h
        rw [ih (r.guid :: seen) hg']

/-! ### Claim C1: per-stage partition lemmas -/

theorem select_1_to_1_spec (l : List CRecord)
    (hcons : ∀ r ∈ l, ∀ q ∈ l, r.guid = q.guid → is1to1Geom r = is1to1Geom q) :
    (∀ g, (hasGuid (select_1_to_1_geometric_matches l).1 g ∨
        hasGuid (select_1_to_1_geometric_matches l).2 g) ↔ hasGuid l g) ∧
      (∀ g, hasGuid (select_1_to_1_geometric_matches l).1 g →
        ¬ hasGuid (select_1_to_1_geometric_matches l).2 g) :=
  ⟨fun g => hasGuid_filter_or_not l is1to1Geom g,
    fun g => hasGuid_filter_pred_disjoint l is1to1Geom hcons g⟩

theorem select_1_bgt_spec (l : List CRecord) :
    (∀ g, (hasGuid (select_1_bgt_to_n_gisib_overlap5_matches l).1 g ∨
        hasGuid (select_1_bgt_to_n_gisib_overlap5_matches l).2.1 g ∨
        hasGuid (select_1_bgt_to_n_gisib_overlap5_matches l).2.2 g) ↔ hasGuid l g) ∧
      (∀ g, hasGuid (select_1_bgt_to_n_gisib_overlap5_matches l).1 g →
        ¬ hasGuid (select_1_bgt_to_n_gisib_overlap5_matches l).2.1 g) ∧
      (∀ g, hasGuid (select_1_bgt_to_n_gisib_overlap5_matches l).1 g →
        ¬ hasGuid (select_1_bgt_to_n_gisib_overlap5_matches l).2.2 g) ∧
      (∀ g, hasGuid (select_1_bgt_to_n_gisib_overlap5_matches l).2.1 g →
        ¬ hasGuid (select_1_bgt_to_n_gisib_overlap5_matches l).2.2 g) := by
  have h1 : ∀ g, hasGuid (select_1_bgt_to_n_gisib_overlap5_matches l).1 g ↔
      hasGuid l g ∧ g ∈ mergeGuids (build_bgt_gisib_grouped l) := fun g =>
    hasGuid_filter_isin l _ g
  have h2 : ∀ g, hasGuid (select_1_bgt_to_n_gisib_overlap5_matches l).2.1 g ↔
      hasGuid l g ∧ g ∈ (splitGuidsRaw (build_bgt_gisib_grouped l)).filter
        (fun g => !decide (g ∈ mergeGuids (build_bgt_gisib_grouped l))) := fun g =>
    hasGuid_filter_isin l _ g
  have h3 : ∀ g, hasGuid (select_1_bgt_to_n_gisib_overlap5_matches l).2.2 g ↔
      hasGuid l g ∧ g ∉ mergeGuids (build_bgt_gisib_grouped l) ∧
        g ∉ (splitGuidsRaw (build_bgt_gisib_grouped l)).filter
          (fun g => !decide (g ∈ mergeGuids (build_bgt_gisib_grouped l))) := fun g =>
    hasGuid_filter_notin2 l _ _ g
  have hsm : ∀ g, g ∈ (splitGuidsRaw (build_bgt_gisib_grouped l)).filter
      (fun g => !decide (g ∈ mergeGuids (build_bgt_gisib_grouped l))) →
      g ∉ mergeGuids (build_bgt_gisib_grouped l) := by
    intro g hgs
    rw [List.mem_filter] at hgs
    simpa using hgs.2
  refine ⟨?_, ?_, ?_, ?_⟩
  · intro g
    rw [h1 g, h2 g, h3 g]
    constructor
    · rintro (⟨h, _⟩ | ⟨h, _⟩ | ⟨h, _⟩) <;> exact h
    · intro h
      by_cases hM : g ∈ mergeGuids (build_bgt_gisib_grouped l)
      · exact Or.inl ⟨h, hM⟩
      · by_cases hS : g ∈ (splitGuidsRaw (build_bgt_gisib_grouped l)).filter
            (fun g => !decide (g ∈ mergeGuids (build_bgt_gisib_grouped l)))
        · exact Or.inr (Or.inl ⟨h, hS⟩)
        · exact Or.inr (Or.inr ⟨h, hM, hS⟩)
  · intro g hb hs
    exact hsm g ((h2 g).mp hs).2 ((h1 g).mp hb).2
  · intro g hb hr
    exact ((h3 g).mp hr).2.1 ((h1 g).mp hb).2
  · intro g hb hr
    exact ((h3 g).mp hr).2.2 ((h2 g).mp hb).2

theorem select_1_gisib_spec (l : List CRecord) :
    (∀ g, (hasGuid (select_1_gisib_to_n_bgt_overlap5_matches l).1 g ∨
        hasGuid (select_1_gisib_to_n_bgt_overlap5_matches l).2 g) ↔ hasGuid l g) ∧
      (∀ g, hasGuid (select_1_gisib_to_n_bgt_overlap5_matches l).1 g →
        ¬ hasGuid (select_1_gisib_to_n_bgt_overlap5_matches l).2 g) := by
  have h1 : ∀ g, hasGuid (select_1_gisib_to_n_bgt_overlap5_matches l).1 g ↔
      hasGuid l g ∧ g ∈ ((build_gisib_bgt_grouped l).filter (fun gp =>
        inBand gp.overlap_bgt && inBand gp.overlap_gisib &&
          decide (1 < gp.lokaalid_count))).map (fun gp => gp.guid) := fun g =>
    hasGuid_filter_isin l _ g
  have h2 : ∀ g, hasGuid (select_1_gisib_to_n_bgt_overlap5_matches l).2 g ↔
      hasGuid l g ∧ g ∉ ((build_gisib_bgt_grouped l).filter (fun gp =>
        inBand gp.overlap_bgt && inBand gp.overlap_gisib &&
          decide (1 < gp.lokaalid_count))).map (fun gp => gp.guid) := fun g =>
    hasGuid_filter_notin l _ g
  constructor
  · intro g
    rw [h1 g, h2 g]
    constructor
    · rintro (⟨h, _⟩ | ⟨h, _⟩) <;> exact h
    · intro h
      by_cases hS : g ∈ ((build_gisib_bgt_grouped l).filter (fun gp =>
          inBand gp.overlap_bgt && inBand gp.overlap_gisib &&
            decide (1 < gp.lokaalid_count))).map (fun gp => gp.guid)
      · exact Or.inl ⟨h, hS⟩
      · exact Or.inr ⟨h, hS⟩
  · intro g hb hr
    exact ((h2 g).mp hr).2 ((h1 g).mp hb).2

theorem geom_match_some_eq (l b rem : List CRecord)
    (h : geom_match l = some (b, rem)) :
    b = l.filter geom75 ∧
      rem = l.filter
        (fun r => !((l.filter geom75).any (fun q => decide (q.guid = r.guid)))) := by
  simp only [geom_match] at h
  split at h
  · cases h
  · simp only [Option.some.injEq, Prod.mk.injEq] at h
    exact ⟨h.1.symm, h.2.symm⟩

theorem geom_match_spec (l b rem : List CRecord) (h : geom_match l = some (b, rem)) :
    (∀ g, (hasGuid b g ∨ hasGuid rem g) ↔ hasGuid l g) ∧
      (∀ g, hasGuid b g → ¬ hasGuid rem g) := by
  obtain ⟨hb, hrem⟩ := geom_match_some_eq l b rem h
  subst hb
  subst hrem
  constructor
  · intro g
    constructor
    · rintro (h | h)
      · exact hasGuid_filter_sub _ _ _ h
      · exact ((hasGuid_filter_not_anyguid l _ g).mp h).1
    · intro hg
      by_cases hbg : hasGuid (l.filter geom75) g
      · exact Or.inl hbg
      · exact Or.inr ((hasGuid_filter_not_anyguid l _ g).mpr ⟨hg, hbg⟩)
  · intro g hbg hremg
    exact ((hasGuid_filter_not_anyguid l _ g).mp hremg).2 hbg

theorem additional_spec (l : List CRecord) :
    (∀ g, (hasGuid (additional_matches_based_on_overlap l).1 g ∨
        hasGuid (additional_matches_based_on_overlap l).2 g) ↔ hasGuid l g) ∧
      (∀ g, hasGuid (additional_matches_based_on_overlap l).1 g →
        ¬ hasGuid (additional_matches_based_on_overlap l).2 g) := by
  have hsubB : ∀ g, hasGuid (additional_matches_based_on_overlap l).1 g →
      hasGuid l g := by
    intro g h
    obtain ⟨r, hr, rfl⟩ := hasGuid_filter_sub _ _ _ h
    exact ⟨r, (mem_sortAscBy totalSum l r).mp hr, rfl⟩
  constructor
  · intro g
    constructor
    · rintro (h | h)
      · exact hsubB g h
      · exact ((hasGuid_filter_not_anyguid l _ g).mp h).1
    · intro hg
      by_cases hbg : hasGuid (additional_matches_based_on_overlap l).1 g
      · exact Or.inl hbg
      · exact Or.inr ((hasGuid_filter_not_anyguid l _ g).mpr ⟨hg, hbg⟩)
  · intro g hbg hremg
    exact ((hasGuid_filter_not_anyguid l _ g).mp hremg).2 hbg

theorem clip_match_spec (l : List CRecord) :
    (∀ g, (hasGuid (clip_match l).1 g ∨ hasGuid (clip_match l).2 g) ↔ hasGuid l g) ∧
      (∀ g, hasGuid (clip_match l).1 g → ¬ hasGuid (clip_match l).2 g) := by
  have hded : ∀ g, hasGuid (clip_match l).1 g → hasGuid l g := by
    intro g h
    have h2 := (hasGuid_dedupByGuid _ [] g (by simp)).mp h
    rw [hasGuid_append] at h2
    rcases h2 with h2 | h2 <;>
      exact hasGuid_filter_sub _ _ _ (hasGuid_filter_sub _ _ _ h2)
  constructor
  · intro g
    constructor
    · rintro (h | h)
      · exact hded g h
      · exact ((hasGuid_filter_not_anyguid l _ g).mp h).1
    · intro hg
      by_cases hbg : hasGuid (clip_match l).1 g
      · exact Or.inl hbg
      · exact Or.inr ((hasGuid_filter_not_anyguid l _ g).mpr ⟨hg, hbg⟩)
  · intro g hbg hremg
    exact ((hasGuid_filter_not_anyguid l _ g).mp hremg).2 hbg

theorem no_matches_spec (gw : List GFeature) (idf : List CRecord) (g : Nat) :
    (∃ f ∈ no_matches gw idf, f.guid = g) ↔
      (∃ f ∈ gw, f.guid = g) ∧ ¬ hasGuid idf g := by
  unfold no_matches
  constructor
  · rintro ⟨f, hf, rfl⟩
    rw [List.mem_filter] at hf
    refine ⟨⟨f, hf.1, rfl⟩, ?_⟩
    rintro ⟨r, hr, hrg⟩
    have h2 := hf.2
    simp only [Bool.not_eq_true', List.any_eq_false, decide_eq_true_eq] at h2
    exact h2 r hr hrg
  · rintro ⟨⟨f, hf, rfl⟩, hn⟩
    refine ⟨f, List.mem_filter.mpr ⟨hf, ?_⟩, rfl⟩
    simp only [Bool.not_eq_true', List.any_eq_false, decide_eq_true_eq]
    intro r hr he
    exact hn ⟨r, hr, he⟩

/-! ### Claim C1: uniqueness of the surviving record of a 1:1 gisib id -/

theorem countP_append_le_of_exclusive {α : Type} (pm A B : α → Bool) (l : List α)
    (hex : ∀ x ∈ l, ¬(A x = true ∧ B x = true)) :
    (l.filter A).countP pm + (l.filter B).countP pm ≤ l.countP pm := by
  induction l with
  | nil => simp
  | cons a l ih =>
    have iht := ih (fun x hx => hex x (List.mem_cons_of_mem a hx))
    have hAB : ¬(A a = true ∧ B a = true) := hex a (List.mem_cons_self a l)
    by_cases hA : A a = true
    · have hB : B a = false := by
        cases hBB : B a
        · rfl
        · exact absurd ⟨hA, hBB⟩ hAB
      cases hm : pm a <;> simp [List.filter_cons, List.countP_cons, hA, hB, hm] <;> omega
    · have hA' : A a = false := by
        cases hAA : A a
        · rfl
        · exact absurd hAA hA
      by_cases hB : B a = true
      · cases hm : pm a <;> simp [List.filter_cons, List.countP_cons, hA', hB, hm] <;> omega
      · have hB' : B a = false := by
          cases hBB : B a
          · rfl
          · exact absurd hBB hB
        cases hm : pm a <;> simp [List.filter_cons, List.countP_cons, hA', hB', hm] <;> omega

theorem gprm_mem_sub (df : List CRecord) : ∀ r ∈ get_perfect_rel_matches df, r ∈ df := by
  intro r hr
  have hmg : ∀ q ∈ gprmMerged df, q ∈ df := by
    intro q hq
    rcases List.mem_append.mp hq with h2 | h2 <;> exact (List.mem_filter.mp h2).1
  rcases List.mem_append.mp hr with h | h
  · exact hmg r (List.mem_filter.mp h).1
  · exact hmg r (List.mem_filter.mp h).1

theorem gprm_countP_le (pm : CRecord → Bool) (df : List CRecord) :
    (get_perfect_rel_matches df).countP pm ≤ df.countP pm := by
  have hmerged : (gprmMerged df).countP pm ≤ df.countP pm := by
    unfold gprmMerged gprmSubset1 gprmSubset2
    rw [List.countP_append]
    apply countP_append_le_of_exclusive
    rintro x _ ⟨h1, h2⟩
    simp only [Bool.and_eq_true, decide_eq_true_eq] at h1
    simp only [Bool.not_eq_true', decide_eq_false_iff_not] at h2
    exact h2 h1.2
  have hout : (get_perfect_rel_matches df).countP pm ≤ (gprmMerged df).countP pm := by
    show (gprmSubset3 df ++ gprmRest df).countP pm ≤ (gprmMerged df).countP pm
    rw [List.countP_append]
    have h3 : gprmSubset3 df =
        (gprmMerged df).filter (fun r => hasBothRel df r.guid && perfect_match r) := rfl
    have hrest : gprmRest df = (gprmMerged df).filter
        (fun r => !decide (r.guid ∈ (gprmSubset3 df).map (fun q => q.guid))) := rfl
    rw [h3, hrest]
    apply countP_append_le_of_exclusive
    rintro x hx ⟨h1, h2⟩
    simp only [Bool.not_eq_true', decide_eq_false_iff_not] at h2
    apply h2
    rw [List.mem_map]
    exact ⟨x, List.mem_filter.mpr ⟨hx, h1⟩, rfl⟩
  exact le_trans hout hmerged

theorem pairCount_add_counts (F : List ORecord) (g t : Nat) :
    pairCount (add_intersection_counts F) g t = pairCountO F g t := by
  unfold pairCount pairCountO add_intersection_counts
  rw [List.countP_map]
  rfl

theorem pairCountO_filter_le (mr : Rat) (records : List ORecord) (g t : Nat) :
    pairCountO (filter_overlap_min mr records) g t ≤ pairCountO records g t := by
  unfold pairCountO filter_overlap_min
  exact List.Sublist.countP_le _ (List.filter_sublist records)

theorem eq_of_countP_le_one {α : Type} (p : α → Bool) (l : List α) (h : l.countP p ≤ 1)
    {a b : α} (ha : a ∈ l) (hb : b ∈ l) (hpa : p a = true) (hpb : p b = true) :
    a = b := by
  induction l with
  | nil => cases ha
  | cons x xs ih =>
    rw [List.countP_cons] at h
    rcases List.mem_cons.mp ha with rfl | ha'
    · rcases List.mem_cons.mp hb with rfl | hb'
      · rfl
      · exfalso
        rw [if_pos hpa] at h
        have hpos : 0 < xs.countP p := List.countP_pos_iff.mpr ⟨b, hb', hpb⟩
        omega
    · rcases List.mem_cons.mp hb with rfl | hb'
      · exfalso
        rw [if_pos hpb] at h
        have hpos : 0 < xs.countP p := List.countP_pos_iff.mpr ⟨a, ha', hpa⟩
        omega
      · refine ih ?_ ha' hb'
        by_cases hx : p x = true
        · rw [if_pos hx] at h
          omega
        · rw [if_neg hx] at h
          omega

theorem lokaalid_unique_of_count_one (F : List ORecord) (g : Nat)
    (h1 : (lokaalidsOf F g).length = 1) :
    ∀ r ∈ F, r.guid = g → ∀ q ∈ F, q.guid = g → r.lokaalid = q.lokaalid := by
  obtain ⟨t, ht⟩ := List.length_eq_one.mp h1
  intro r hr hrg q hq hqg
  have hrmem : r.lokaalid ∈ lokaalidsOf F g := by
    unfold lokaalidsOf
    rw [List.mem_dedup, List.mem_map]
    exact ⟨r, List.mem_filter.mpr ⟨hr, by simpa using hrg⟩, rfl⟩
  have hqmem : q.lokaalid ∈ lokaalidsOf F g := by
    unfold lokaalidsOf
    rw [List.mem_dedup, List.mem_map]
    exact ⟨q, List.mem_filter.mpr ⟨hq, by simpa using hqg⟩, rfl⟩
  rw [ht] at hrmem hqmem
  simp only [List.mem_singleton] at hrmem hqmem
  rw [hrmem, hqmem]

theorem counts_spec (F : List ORecord) :
    ∀ c ∈ add_intersection_counts F,
      c.toORecord ∈ F ∧
        c.guids_per_lokaalid = (guidsOfLok F c.toORecord.lokaalid).length ∧
        c.lokaalids_per_guid = (lokaalidsOf F c.toORecord.guid).length := by
  intro c hc
  unfold add_intersection_counts at hc
  rw [List.mem_map] at hc
  obtain ⟨o, ho, rfl⟩ := hc
  exact ⟨ho, rfl, rfl⟩

theorem preprocess_guid_sub (mr : Rat) (records : List ORecord) (g : Nat)
    (h : hasGuid (preprocess mr records) g) : ∃ o ∈ records, o.guid = g := by
  obtain ⟨r, hr, rfl⟩ := h
  have hW := gprm_mem_sub _ r hr
  obtain ⟨hF, _, _⟩ := counts_spec _ r hW
  unfold filter_overlap_min at hF
  exact ⟨r.toORecord, (List.mem_filter.mp hF).1, rfl⟩

theorem preprocess_is1to1_consistent (mr : Rat) (records : List ORecord)
    (hpair : ∀ g t, pairCountO records g t ≤ 1) :
    ∀ r ∈ preprocess mr records, ∀ q ∈ preprocess mr records,
      r.guid = q.guid → is1to1Geom r = is1to1Geom q := by
  intro r hr q hq hg
  have hrW : r ∈ add_intersection_counts (filter_overlap_min mr records) :=
    gprm_mem_sub _ r hr
  have hqW : q ∈ add_intersection_counts (filter_overlap_min mr records) :=
    gprm_mem_sub _ q hq
  obtain ⟨hrF, hrg2, hrl⟩ := counts_spec _ r hrW
  obtain ⟨hqF, hqg2, hql⟩ := counts_spec _ q hqW
  by_cases h1 : r.lokaalids_per_guid = 1
  · -- the gisib id has a single bgt id among the filtered records, and at most
    -- one record with that pair, so r and q are the same record
    have hlen : (lokaalidsOf (filter_overlap_min mr records) r.toORecord.guid).length = 1 := by
      rw [← hrl]
      exact h1
    have htq : r.toORecord.lokaalid = q.toORecord.lokaalid :=
      lokaalid_unique_of_count_one _ _ hlen r.toORecord hrF rfl q.toORecord hqF hg.symm
    have hpc : pairCountO (filter_overlap_min mr records) r.toORecord.guid
        r.toORecord.lokaalid ≤ 1 :=
      le_trans (pairCountO_filter_le mr records _ _) (hpair _ _)
    have heqO : r.toORecord = q.toORecord := by
      apply eq_of_countP_le_one _ _ hpc hrF hqF
      · simp
      · simp only [Bool.and_eq_true, decide_eq_true_eq]
        exact ⟨hg.symm, htq.symm⟩
    have e2 : r.guids_per_lokaalid = q.guids_per_lokaalid := by
      rw [hrg2, hqg2, htq]
    have e3 : r.lokaalids_per_guid = q.lokaalids_per_guid := by
      rw [hrl, hql, hg]
    have heq : r = q := by
      obtain ⟨ro, rg, rl⟩ := r
      obtain ⟨qo, qg, ql⟩ := q
      dsimp only at heqO e2 e3
      rw [heqO, e2, e3]
    rw [heq]
  · have h1q : ¬ q.lokaalids_per_guid = 1 := by
      rw [hql, ← hg, ← hrl]
      exact h1
    have hr0 : is1to1Geom r = false := by
      unfold is1to1Geom
      simp [h1]
    have hq0 : is1to1Geom q = false := by
      unfold is1to1Geom
      simp [h1q]
    rw [hr0, hq0]

/-! ### Claim C1: assembling the waterfall partition -/

theorem mem_map_guid (b : List CRecord) (g : Nat) :
    g ∈ b.map (fun r => r.guid) ↔ hasGuid b g := by
  rw [List.mem_map]
  exact Iff.rfl

theorem mem_map_fguid (l : List GFeature) (g : Nat) :
    g ∈ l.map (fun f => f.guid) ↔ ∃ f ∈ l, f.guid = g := by
  rw [List.mem_map]

theorem waterfallBase_partition (gw : List GFeature) (idf : List CRecord)
    (hcons : ∀ r ∈ idf, ∀ q ∈ idf, r.guid = q.guid → is1to1Geom r = is1to1Geom q)
    (hidsub : ∀ g, hasGuid idf g → ∃ f ∈ gw, f.guid = g) :
    ∀ out, waterfallBase gw idf = some out →
      (∀ g, g ∈ (bucketIdLists out).flatten ↔ ∃ f ∈ gw, f.guid = g) ∧
        idListsDisjoint (bucketIdLists out) := by
  intro out hout
  simp only [waterfallBase] at hout
  rcases hgm : geom_match (select_1_gisib_to_n_bgt_overlap5_matches
      (select_1_bgt_to_n_gisib_overlap5_matches
        (select_1_to_1_geometric_matches idf).2).2.2).2 with _ | ⟨b5, r5⟩
  · rw [hgm] at hout
    simp at hout
  · rw [hgm] at hout
    simp only [Option.some.injEq] at hout
    subst hout
    set s1 := select_1_to_1_geometric_matches idf with hs1
    set s2 := select_1_bgt_to_n_gisib_overlap5_matches s1.2 with hs2
    set s4 := select_1_gisib_to_n_bgt_overlap5_matches s2.2.2 with hs4
    set s6 := clip_match r5 with hs6
    have h1 := select_1_to_1_spec idf hcons
    have h2 := select_1_bgt_spec s1.2
    have h4 := select_1_gisib_spec s2.2.2
    have h5 := geom_match_spec s4.2 b5 r5 hgm
    have h6 := clip_match_spec r5
    have u1 := h1.1
    have u2 := h2.1
    have u4 := h4.1
    have u5 := h5.1
    have u6 := h6.1
    have d1 := h1.2
    have d2a := h2.2.1
    have d2b := h2.2.2.1
    have d3b := h2.2.2.2
    have d4 := h4.2
    have d5 := h5.2
    have d6 := h6.2
    have sB1 : ∀ g, hasGuid s1.1 g → hasGuid idf g := fun g h => (u1 g).mp (Or.inl h)
    have sR1 : ∀ g, hasGuid s1.2 g → hasGuid idf g := fun g h => (u1 g).mp (Or.inr h)
    have sB2 : ∀ g, hasGuid s2.1 g → hasGuid s1.2 g := fun g h => (u2 g).mp (Or.inl h)
    have sB3 : ∀ g, hasGuid s2.2.1 g → hasGuid s1.2 g := fun g h =>
      (u2 g).mp (Or.inr (Or.inl h))
    have sR2 : ∀ g, hasGuid s2.2.2 g → hasGuid s1.2 g := fun g h =>
      (u2 g).mp (Or.inr (Or.inr h))
    have sB4 : ∀ g, hasGuid s4.1 g → hasGuid s2.2.2 g := fun g h => (u4 g).mp (Or.inl h)
    have sR4 : ∀ g, hasGuid s4.2 g → hasGuid s2.2.2 g := fun g h => (u4 g).mp (Or.inr h)
    have sB5 : ∀ g, hasGuid b5 g → hasGuid s4.2 g := fun g h => (u5 g).mp (Or.inl h)
    have sR5 : ∀ g, hasGuid r5 g → hasGuid s4.2 g := fun g h => (u5 g).mp (Or.inr h)
    have sB6 : ∀ g, hasGuid s6.1 g → hasGuid r5 g := fun g h => (u6 g).mp (Or.inl h)
    have sR6 : ∀ g, hasGuid s6.2 g → hasGuid r5 g := fun g h => (u6 g).mp (Or.inr h)
    have ti2 : ∀ g, hasGuid s2.1 g → hasGuid idf g := fun g h => sR1 g (sB2 g h)
    have ti3 : ∀ g, hasGuid s2.2.1 g → hasGuid idf g := fun g h => sR1 g (sB3 g h)
    have tir2 : ∀ g, hasGuid s2.2.2 g → hasGuid idf g := fun g h => sR1 g (sR2 g h)
    have ti4 : ∀ g, hasGuid s4.1 g → hasGuid idf g := fun g h => tir2 g (sB4 g h)
    have tir4 : ∀ g, hasGuid s4.2 g → hasGuid idf g := fun g h => tir2 g (sR4 g h)
    have ti5 : ∀ g, hasGuid b5 g → hasGuid idf g := fun g h => tir4 g (sB5 g h)
    have tir5 : ∀ g, hasGuid r5 g → hasGuid idf g := fun g h => tir4 g (sR5 g h)
    have ti6 : ∀ g, hasGuid s6.1 g → hasGuid idf g := fun g h => tir5 g (sB6 g h)
    have ti7 : ∀ g, hasGuid s6.2 g → hasGuid idf g := fun g h => tir5 g (sR6 g h)
    constructor
    · intro g
      have h0 := no_matches_spec gw idf g
      simp only [bucketIdLists, List.map_cons, List.map_nil, List.flatten_cons,
        List.flatten_nil, List.append_nil, List.mem_append, mem_map_guid, mem_map_fguid]
      constructor
      · rintro (h | h | h | h | h | h | h | h)
        · exact (h0.mp h).1
        · exact hidsub g (sB1 g h)
        · exact hidsub g (ti2 g h)
        · exact hidsub g (ti3 g h)
        · exact hidsub g (ti4 g h)
        · exact hidsub g (ti5 g h)
        · exact hidsub g (ti6 g h)
        · exact hidsub g (ti7 g h)
      · intro hfg
        by_cases hidf : hasGuid idf g
        · rcases (u1 g).mpr hidf with h | h
          · exact Or.inr (Or.inl h)
          rcases (u2 g).mpr h with h | h | h
          · exact Or.inr (Or.inr (Or.inl h))
          · exact Or.inr (Or.inr (Or.inr (Or.inl h)))
          rcases (u4 g).mpr h with h | h
          · exact Or.inr (Or.inr (Or.inr (Or.inr (Or.inl h))))
          rcases (u5 g).mpr h with h | h
          · exact Or.inr (Or.inr (Or.inr (Or.inr (Or.inr (Or.inl h)))))
          rcases (u6 g).mpr h with h | h
          · exact Or.inr (Or.inr (Or.inr (Or.inr (Or.inr (Or.inr (Or.inl h))))))
          · exact Or.inr (Or.inr (Or.inr (Or.inr (Or.inr (Or.inr (Or.inr h))))))
        · exact Or.inl (h0.mpr ⟨hfg, hidf⟩)
    · simp only [bucketIdLists, List.map_cons, List.map_nil, idListsDisjoint]
      refine .cons ?_ (.cons ?_ (.cons ?_ (.cons ?_ (.cons ?_ (.cons ?_
        (.cons ?_ (.cons ?_ .nil)))))))
      · intro a ha
        simp only [List.mem_cons, List.not_mem_nil, or_false] at ha
        rcases ha with rfl | rfl | rfl | rfl | rfl | rfl | rfl <;> intro g hg0 hgj <;>
          rw [mem_map_fguid] at hg0 <;> rw [mem_map_guid] at hgj <;>
          refine ((no_matches_spec gw idf g).mp hg0).2 ?_
        · exact sB1 g hgj
        · exact ti2 g hgj
        · exact ti3 g hgj
        · exact ti4 g hgj
        · exact ti5 g hgj
        · exact ti6 g hgj
        · exact ti7 g hgj
      · intro a ha
        simp only [List.mem_cons, List.not_mem_nil, or_false] at ha
        rcases ha with rfl | rfl | rfl | rfl | rfl | rfl <;> intro g hgi hgj <;>
          rw [mem_map_guid] at hgi hgj <;> refine d1 g hgi ?_
        · exact sB2 g hgj
        · exact sB3 g hgj
        · exact sR2 g (sB4 g hgj)
        · exact sR2 g (sR4 g (sB5 g hgj))
        · exact sR2 g (sR4 g (sR5 g (sB6 g hgj)))
        · exact sR2 g (sR4 g (sR5 g (sR6 g hgj)))
      · intro a ha
        simp only [List.mem_cons, List.not_mem_nil, or_false] at ha
        rcases ha with rfl | rfl | rfl | rfl | rfl <;> intro g hgi hgj <;>
          rw [mem_map_guid] at hgi hgj
        · exact d2a g hgi hgj
        · exact d2b g hgi (sB4 g hgj)
        · exact d2b g hgi (sR4 g (sB5 g hgj))
        · exact d2b g hgi (sR4 g (sR5 g (sB6 g hgj)))
        · exact d2b g hgi (sR4 g (sR5 g (sR6 g hgj)))
      · intro a ha
        simp only [List.mem_cons, List.not_mem_nil, or_false] at ha
        rcases ha with rfl | rfl | rfl | rfl <;> intro g hgi hgj <;>
          rw [mem_map_guid] at hgi hgj
        · exact d3b g hgi (sB4 g hgj)
        · exact d3b g hgi (sR4 g (sB5 g hgj))
        · exact d3b g hgi (sR4 g (sR5 g (sB6 g hgj)))
        · exact d3b g hgi (sR4 g (sR5 g (sR6 g hgj)))
      · intro a ha
        simp only [List.mem_cons, List.not_mem_nil, or_false] at ha
        rcases ha with rfl | rfl | rfl <;> intro g hgi hgj <;>
          rw [mem_map_guid] at hgi hgj
        · exact d4 g hgi (sB5 g hgj)
        · exact d4 g hgi (sR5 g (sB6 g hgj))
        · exact d4 g hgi (sR5 g (sR6 g hgj))
      · intro a ha
        simp only [List.mem_cons, List.not_mem_nil, or_false] at ha
        rcases ha with rfl | rfl <;> intro g hgi hgj <;>
          rw [mem_map_guid] at hgi hgj
        · exact d5 g hgi (sB6 g hgj)
        · exact d5 g hgi (sR6 g hgj)
      · intro a ha
        simp only [List.mem_cons, List.not_mem_nil, or_false] at ha
        rcases ha with rfl <;> intro g hgi hgj <;> rw [mem_map_guid] at hgi hgj
        · exact d6 g hgi hgj
      · intro a ha
        cases ha

theorem waterfallVrh_partition (gw : List GFeature) (idf : List CRecord)
    (hcons : ∀ r ∈ idf, ∀ q ∈ idf, r.guid = q.guid → is1to1Geom r = is1to1Geom q)
    (hidsub : ∀ g, hasGuid idf g → ∃ f ∈ gw, f.guid = g) :
    ∀ out, waterfallVrh gw idf = some out →
      (∀ g, g ∈ (bucketIdLists out).flatten ↔ ∃ f ∈ gw, f.guid = g) ∧
        idListsDisjoint (bucketIdLists out) := by
  intro out hout
  simp only [waterfallVrh] at hout
  rcases hgm : geom_match (select_1_gisib_to_n_bgt_overlap5_matches
      (select_1_bgt_to_n_gisib_overlap5_matches
        (select_1_to_1_geometric_matches idf).2).2.2).2 with _ | ⟨b5, r5⟩
  · rw [hgm] at hout
    simp at hout
  · rw [hgm] at hout
    simp only [Option.some.injEq] at hout
    subst hout
    set s1 := select_1_to_1_geometric_matches idf with hs1
    set s2 := select_1_bgt_to_n_gisib_overlap5_matches s1.2 with hs2
    set s4 := select_1_gisib_to_n_bgt_overlap5_matches s2.2.2 with hs4
    set s6 := additional_matches_based_on_overlap r5 with hs6
    set s7 := clip_match s6.2 with hs7
    have h1 := select_1_to_1_spec idf hcons
    have h2 := select_1_bgt_spec s1.2
    have h4 := select_1_gisib_spec s2.2.2
    have h5 := geom_match_spec s4.2 b5 r5 hgm
    have h6 := additional_spec r5
    have h7 := clip_match_spec s6.2
    have u1 := h1.1
    have u2 := h2.1
    have u4 := h4.1
    have u5 := h5.1
    have u6 := h6.1
    have u7 := h7.1
    have d1 := h1.2
    have d2a := h2.2.1
    have d2b := h2.2.2.1
    have d3b := h2.2.2.2
    have d4 := h4.2
    have d5 := h5.2
    have d6 := h6.2
    have d7 := h7.2
    have sB1 : ∀ g, hasGuid s1.1 g → hasGuid idf g := fun g h => (u1 g).mp (Or.inl h)
    have sR1 : ∀ g, hasGuid s1.2 g → hasGuid idf g := fun g h => (u1 g).mp (Or.inr h)
    have sB2 : ∀ g, hasGuid s2.1 g → hasGuid s1.2 g := fun g h => (u2 g).mp (Or.inl h)
    have sB3 : ∀ g, hasGuid s2.2.1 g → hasGuid s1.2 g := fun g h =>
      (u2 g).mp (Or.inr (Or.inl h))
    have sR2 : ∀ g, hasGuid s2.2.2 g → hasGuid s1.2 g := fun g h =>
      (u2 g).mp (Or.inr (Or.inr h))
    have sB4 : ∀ g, hasGuid s4.1 g → hasGuid s2.2.2 g := fun g h => (u4 g).mp (Or.inl h)
    have sR4 : ∀ g, hasGuid s4.2 g → hasGuid s2.2.2 g := fun g h => (u4 g).mp (Or.inr h)
    have sB5 : ∀ g, hasGuid b5 g → hasGuid s4.2 g := fun g h => (u5 g).mp (Or.inl h)
    have sR5 : ∀ g, hasGuid r5 g → hasGuid s4.2 g := fun g h => (u5 g).mp (Or.inr h)
    have sB6 : ∀ g, hasGuid s6.1 g → hasGuid r5 g := fun g h => (u6 g).mp (Or.inl h)
    have sR6 : ∀ g, hasGuid s6.2 g → hasGuid r5 g := fun g h => (u6 g).mp (Or.inr h)
    have sB7 : ∀ g, hasGuid s7.1 g → hasGuid s6.2 g := fun g h => (u7 g).mp (Or.inl h)
    have sR7 : ∀ g, hasGuid s7.2 g → hasGuid s6.2 g := fun g h => (u7 g).mp (Or.inr h)
    have ti2 : ∀ g, hasGuid s2.1 g → hasGuid idf g := fun g h => sR1 g (sB2 g h)
    have ti3 : ∀ g, hasGuid s2.2.1 g → hasGuid idf g := fun g h => sR1 g (sB3 g h)
    have tir2 : ∀ g, hasGuid s2.2.2 g → hasGuid idf g := fun g h => sR1 g (sR2 g h)
    have ti4 : ∀ g, hasGuid s4.1 g → hasGuid idf g := fun g h => tir2 g (sB4 g h)
    have tir4 : ∀ g, hasGuid s4.2 g → hasGuid idf g := fun g h => tir2 g (sR4 g h)
    have ti5 : ∀ g, hasGuid b5 g → hasGuid idf g := fun g h => tir4 g (sB5 g h)
    have tir5 : ∀ g, hasGuid r5 g → hasGuid idf g := fun g h => tir4 g (sR5 g h)
    have ti6 : ∀ g, hasGuid s6.1 g → hasGuid idf g := fun g h => tir5 g (sB6 g h)
    have tir6 : ∀ g, hasGuid s6.2 g → hasGuid idf g := fun g h => tir5 g (sR6 g h)
    have ti7 : ∀ g, hasGuid s7.1 g → hasGuid idf g := fun g h => tir6 g (sB7 g h)
    have ti8 : ∀ g, hasGuid s7.2 g → hasGuid idf g := fun g h => tir6 g (sR7 g h)
    constructor
    · intro g
      have h0 := no_matches_spec gw idf g
      simp only [bucketIdLists, List.map_cons, List.map_nil, List.flatten_cons,
        List.flatten_nil, List.append_nil, List.mem_append, mem_map_guid, mem_map_fguid]
      constructor
      · rintro (h | h | h | h | h | h | h | h | h)
        · exact (h0.mp h).1
        · exact hidsub g (sB1 g h)
        · exact hidsub g (ti2 g h)
        · exact hidsub g (ti3 g h)
        · exact hidsub g (ti4 g h)
        · exact hidsub g (ti5 g h)
        · exact hidsub g (ti6 g h)
        · exact hidsub g (ti7 g h)
        · exact hidsub g (ti8 g h)
      · intro hfg
        by_cases hidf : hasGuid idf g
        · rcases (u1 g).mpr hidf with h | h
          · exact Or.inr (Or.inl h)
          rcases (u2 g).mpr h with h | h | h
          · exact Or.inr (Or.inr (Or.inl h))
          · exact Or.inr (Or.inr (Or.inr (Or.inl h)))
          rcases (u4 g).mpr h with h | h
          · exact Or.inr (Or.inr (Or.inr (Or.inr (Or.inl h))))
          rcases (u5 g).mpr h with h | h
          · exact Or.inr (Or.inr (Or.inr (Or.inr (Or.inr (Or.inl h)))))
          rcases (u6 g).mpr h with h | h
          · exact Or.inr (Or.inr (Or.inr (Or.inr (Or.inr (Or.inr (Or.inl h))))))
          rcases (u7 g).mpr h with h | h
          · exact Or.inr (Or.inr (Or.inr (Or.inr (Or.inr (Or.inr (Or.inr (Or.inl h)))))))
          · exact Or.inr (Or.inr (Or.inr (Or.inr (Or.inr (Or.inr (Or.inr (Or.inr h)))))))
        · exact Or.inl (h0.mpr ⟨hfg, hidf⟩)
    · simp only [bucketIdLists, List.map_cons, List.map_nil, idListsDisjoint]
      refine .cons ?_ (.cons ?_ (.cons ?_ (.cons ?_ (.cons ?_ (.cons ?_
        (.cons ?_ (.cons ?_ (.cons ?_ .nil))))))))
      · intro a ha
        simp only [List.mem_cons, List.not_mem_nil, or_false] at ha
        rcases ha with rfl | rfl | rfl | rfl | rfl | rfl | rfl | rfl <;>
          intro g hg0 hgj <;>
          rw [mem_map_fguid] at hg0 <;> rw [mem_map_guid] at hgj <;>
          refine ((no_matches_spec gw idf g).mp hg0).2 ?_
        · exact sB1 g hgj
        · exact ti2 g hgj
        · exact ti3 g hgj
        · exact ti4 g hgj
        · exact ti5 g hgj
        · exact ti6 g hgj
        · exact ti7 g hgj
        · exact ti8 g hgj
      · intro a ha
        simp only [List.mem_cons, List.not_mem_nil, or_false] at ha
        rcases ha with rfl | rfl | rfl | rfl | rfl | rfl | rfl <;> intro g hgi hgj <;>
          rw [mem_map_guid] at hgi hgj <;> refine d1 g hgi ?_
        · exact sB2 g hgj
        · exact sB3 g hgj
        · exact sR2 g (sB4 g hgj)
        · exact sR2 g (sR4 g (sB5 g hgj))
        · exact sR2 g (sR4 g (sR5 g (sB6 g hgj)))
        · exact sR2 g (sR4 g (sR5 g (sR6 g (sB7 g hgj))))
        · exact sR2 g (sR4 g (sR5 g (sR6 g (sR7 g hgj))))
      · intro a ha
        simp only [List.mem_cons, List.not_mem_nil, or_false] at ha
        rcases ha with rfl | rfl | rfl | rfl | rfl | rfl <;> intro g hgi hgj <;>
          rw [mem_map_guid] at hgi hgj
        · exact d2a g hgi hgj
        · exact d2b g hgi (sB4 g hgj)
        · exact d2b g hgi (sR4 g (sB5 g hgj))
        · exact d2b g hgi (sR4 g (sR5 g (sB6 g hgj)))
        · exact d2b g hgi (sR4 g (sR5 g (sR6 g (sB7 g hgj))))
        · exact d2b g hgi (sR4 g (sR5 g (sR6 g (sR7 g hgj))))
      · intro a ha
        simp only [List.mem_cons, List.not_mem_nil, or_false] at ha
        rcases ha with rfl | rfl | rfl | rfl | rfl <;> intro g hgi hgj <;>
          rw [mem_map_guid] at hgi hgj
        · exact d3b g hgi (sB4 g hgj)
        · exact d3b g hgi (sR4 g (sB5 g hgj))
        · exact d3b g hgi (sR4 g (sR5 g (sB6 g hgj)))
        · exact d3b g hgi (sR4 g (sR5 g (sR6 g (sB7 g hgj))))
        · exact d3b g hgi (sR4 g (sR5 g (sR6 g (sR7 g hgj))))
      · intro a ha
        simp only [List.mem_cons, List.not_mem_nil, or_false] at ha
        rcases ha with rfl | rfl | rfl | rfl <;> intro g hgi hgj <;>
          rw [mem_map_guid] at hgi hgj
        · exact d4 g hgi (sB5 g hgj)
        · exact d4 g hgi (sR5 g (sB6 g hgj))
        · exact d4 g hgi (sR5 g (sR6 g (sB7 g hgj)))
        · exact d4 g hgi (sR5 g (sR6 g (sR7 g hgj)))
      · intro a ha
        simp only [List.mem_cons, List.not_mem_nil, or_false] at ha
        rcases ha with rfl | rfl | rfl <;> intro g hgi hgj <;>
          rw [mem_map_guid] at hgi hgj
        · exact d5 g hgi (sB6 g hgj)
        · exact d5 g hgi (sR6 g (sB7 g hgj))
        · exact d5 g hgi (sR6 g (sR7 g hgj))
      · intro a ha
        simp only [List.mem_cons, List.not_mem_nil, or_false] at ha
        rcases ha with rfl | rfl <;> intro g hgi hgj <;>
          rw [mem_map_guid] at hgi hgj
        · exact d6 g hgi (sB7 g hgj)
        · exact d6 g hgi (sR7 g hgj)
      · intro a ha
        simp only [List.mem_cons, List.not_mem_nil, or_false] at ha
        rcases ha with rfl <;> intro g hgi hgj <;> rw [mem_map_guid] at hgi hgj
        · exact d7 g hgi hgj
      · intro a ha
        cases ha

/-- C1 counterexample: a source feature of a skip type (`"Riet"`) belongs to
the full input source id set but appears in *no* bucket of the run — the
constructor drops skip-type rows before the waterfall, so the union of bucket
ids is the skip-filtered id set, not the full input id set. -/
theorem c1_full_input_counterexample :
    runBase (0.1 : Rat) ["Riet"] c1gisibSkip [] =
      some ([], [(bucketName1, []), (bucketName2, []), (bucketName3, []),
        (bucketName4, []), (bucketName5, []), (bucketName6, []),
        (bucketNameRem, [])]) ∧
      (1 : Nat) ∈ c1gisibSkip.map (fun f => f.guid) ∧
      (bucketIdLists ([], [(bucketName1, []), (bucketName2, []), (bucketName3, []),
        (bucketName4, []), (bucketName5, []), (bucketName6, []),
        (bucketNameRem, [])])).flatten = [] := by
  with_unfolding_all decide

/-- C1 amended: on every completed run of `MatcherBase.run` or the
verhardingen variant, the source ids across all returned buckets (`no_matches`
plus the record buckets in dict order) are exactly the ids of the
*skip-filtered* working set of input source features, and no source id occurs
in more than one bucket.  The two hypotheses hold for overlay output by
construction: the overlay produces at most one record per (source row, target
row) pair of a unique-id source table, and only pairs rows of the working set.
-/
theorem c1_partition_amended (mr : Rat) (skipTypes : List String)
    (gisib : List GFeature) (records : List ORecord)
    (hpair : ∀ g t, pairCountO records g t ≤ 1)
    (hsub : ∀ r ∈ records, ∃ f ∈ gisibWorking skipTypes gisib, f.guid = r.guid) :
    (∀ out, runBase mr skipTypes gisib records = some out →
      (∀ g, g ∈ (bucketIdLists out).flatten ↔
        ∃ f ∈ gisibWorking skipTypes gisib, f.guid = g) ∧
        idListsDisjoint (bucketIdLists out)) ∧
    (∀ out, runVrh mr skipTypes gisib records = some out →
      (∀ g, g ∈ (bucketIdLists out).flatten ↔
        ∃ f ∈ gisibWorking skipTypes gisib, f.guid = g) ∧
        idListsDisjoint (bucketIdLists out)) := by
  have hcons := preprocess_is1to1_consistent mr records hpair
  have hidsub : ∀ g, hasGuid (preprocess mr records) g →
      ∃ f ∈ gisibWorking skipTypes gisib, f.guid = g := by
    intro g h
    obtain ⟨o, ho, hog⟩ := preprocess_guid_sub mr records g h
    exact hog ▸ hsub o ho
  exact ⟨waterfallBase_partition (gisibWorking skipTypes gisib) (preprocess mr records)
      hcons hidsub,
    waterfallVrh_partition (gisibWorking skipTypes gisib) (preprocess mr records)
      hcons hidsub⟩

theorem c1_partition_amended_witness :
    (∀ g, g ∈ (bucketIdLists ([⟨1, "Gras", 0⟩], [(bucketName1, []), (bucketName2, []),
        (bucketName3, []), (bucketName4, []), (bucketName5, []), (bucketName6, []),
        (bucketNameRem, [])])).flatten ↔
      ∃ f ∈ gisibWorking [] [⟨1, "Gras", 0⟩], f.guid = g) ∧
      idListsDisjoint (bucketIdLists ([⟨1, "Gras", 0⟩], [(bucketName1, []),
        (bucketName2, []), (bucketName3, []), (bucketName4, []), (bucketName5, []),
        (bucketName6, []), (bucketNameRem, [])])) :=
  (c1_partition_amended (0.1 : Rat) [] [⟨1, "Gras", 0⟩] []
      (fun g t => by simp [pairCountO])
      (fun r hr => absurd hr (List.not_mem_nil r))).1
    ([⟨1, "Gras", 0⟩], [(bucketName1, []), (bucketName2, []), (bucketName3, []),
      (bucketName4, []), (bucketName5, []), (bucketName6, []), (bucketNameRem, [])])
    (by with_unfolding_all decide)

end GisibBgt
